import Mathlib

/-!
Shallow embedding of the SECoP-PLC configuration validator
(`code-generator/src/codegen`): the pydantic schema model (`model/secnode.py`),
the rule catalog (`rules/secop_rules.py`, `rules/plc_rules.py`) and the
orchestrator (`validators/validate_config.py`).

Conventions of the embedding:
- Python `Optional[T]` becomes `Option T`; pydantic defaults are applied by
  explicit `ofInput`-style constructors or structure defaults, mirroring the
  source field defaults.
- Python `dict` fields (`modules`, `accessibles`, enum `members`) become
  association lists `List (String × _)`; `k in d` is `(d.lookup k).isSome`
  and `d.get(k)` is `d.lookup k`, which matches dict semantics since pydantic
  dicts have unique keys.
- Python `float` fields (`min`, `max`, `reach_abs_tolerance`) become `Rat`:
  the rules only compare them for order/equality.
- A Python loop appending findings becomes a per-module (or per-accessible)
  function returning a `List Finding`, flat-mapped over the dict.
- `rule_forbidden_accessibles_by_class` indexes `mod.interface_classes[0]`
  unconditionally, which raises `IndexError` on an empty list; that rule (and
  hence `validate_config`, which it aborts) is embedded with result type
  `Option (List Finding)`, `none` standing for the raised exception.
-/

namespace SecopPlc

/-- `Severity` from `rules/types.py`. -/
inductive Severity where
  | ERROR
  | WARNING
deriving DecidableEq, Repr

/-- `Finding` from `rules/types.py` (dataclass, all fields immutable). -/
structure Finding where
  rule_id : String
  severity : Severity
  path : String
  message : String
  hint : Option String := none
  category : Option String := none
  plc_refs : List String := []
deriving DecidableEq, Repr

/-- One element of a `tuple` members list: in the source this is a raw
`Dict[str, Any]`; the rules consult only its `"type"` key (a string when
present) and its `"members"` key (a label-to-code dict when it is a dict). -/
structure TupleFragment where
  type : Option String := none
  members : Option (List (String × Int)) := none
deriving DecidableEq, Repr

/-- The `members` union of `DataInfo` in `model/secnode.py`:
`Dict[str, int]` (enum) or `List[Dict[str, Any]]` (tuple members). -/
inductive Members where
  | dict (m : List (String × Int))
  | list (l : List TupleFragment)
deriving DecidableEq, Repr

/-- `DataInfo` from `model/secnode.py` (recursive via `argument`/`result`). -/
inductive DataInfo where
  | mk (type : String) (unit : Option String) (min max : Option Rat)
      (maxchars maxlen : Option Int) (members : Option Members)
      (argument result : Option DataInfo)

def DataInfo.type : DataInfo → String
  | .mk t _ _ _ _ _ _ _ _ => t

def DataInfo.unit : DataInfo → Option String
  | .mk _ u _ _ _ _ _ _ _ => u

def DataInfo.min : DataInfo → Option Rat
  | .mk _ _ mn _ _ _ _ _ _ => mn

def DataInfo.max : DataInfo → Option Rat
  | .mk _ _ _ mx _ _ _ _ _ => mx

def DataInfo.maxchars : DataInfo → Option Int
  | .mk _ _ _ _ mc _ _ _ _ => mc

def DataInfo.maxlen : DataInfo → Option Int
  | .mk _ _ _ _ _ ml _ _ _ => ml

def DataInfo.members : DataInfo → Option Members
  | .mk _ _ _ _ _ _ m _ _ => m

def DataInfo.argument : DataInfo → Option DataInfo
  | .mk _ _ _ _ _ _ _ a _ => a

def DataInfo.result : DataInfo → Option DataInfo
  | .mk _ _ _ _ _ _ _ _ r => r

/-- Build a `DataInfo` the way the pydantic model does, with every optional
field defaulted to `None`; callers override the fields the JSON provides. -/
def DataInfo.simple (t : String) : DataInfo :=
  .mk t none none none none none none none none

/-- `Accessible` from `model/secnode.py`; `readonly` defaults to `False`. -/
structure Accessible where
  description : String
  datainfo : DataInfo
  readonly : Bool := false
  checkable : Option Bool := none

/-- Pydantic construction of an `Accessible` from input fields: an absent
`readonly` field (`none`) is replaced by the model default `False`
(`readonly: bool = False` in `model/secnode.py`). -/
def Accessible.ofInput (description : String) (datainfo : DataInfo)
    (readonly? : Option Bool) (checkable : Option Bool) : Accessible :=
  { description := description, datainfo := datainfo,
    readonly := readonly?.getD false, checkable := checkable }

/-- `PlcTcpConfig` from `model/secnode.py`. -/
structure PlcTcpConfig where
  server_ip : Option String := none
  server_port : Option Int := none
  interface_healthy_tag : Option String := none

/-- `PlcNodeConfig` (node-level `x-plc`) from `model/secnode.py`. -/
structure PlcNodeConfig where
  tcp : Option PlcTcpConfig := none
  secop_version : Option String := none
  plc_timestamp_tag : Option String := none

/-- `PlcValueConfig` from `model/secnode.py`. -/
structure PlcValueConfig where
  read_expr : Option String := none
  enum_tag : Option String := none
  enum_member_map : Option (List (String × String)) := none

/-- `PlcStatusConfig` from `model/secnode.py`; the four text fields default
to the empty string (`Optional[str] = ""`). -/
structure PlcStatusConfig where
  disabled_expr : Option String := some ""
  disabled_description : Option String := some ""
  hw_error_expr : Option String := some ""
  hw_error_description : Option String := some ""

/-- `PlcTargetConfig` from `model/secnode.py`. -/
structure PlcTargetConfig where
  write_stmt : Option String := none
  enum_tag : Option String := none
  change_possible_expr : Option String := none
  reach_timeout_s : Option Int := none
  reach_abs_tolerance : Option Rat := none

/-- `PlcClearErrorsConfig` from `model/secnode.py`. -/
structure PlcClearErrorsConfig where
  cmd_stmt : Option String := some ""

/-- `PlcModuleConfig` (module-level `x-plc`) from `model/secnode.py`. -/
structure PlcModuleConfig where
  timestamp_tag : Option String := none
  value : Option PlcValueConfig := none
  status : Option PlcStatusConfig := none
  target : Option PlcTargetConfig := none
  clear_errors : Option PlcClearErrorsConfig := none

/-- `Module` from `model/secnode.py`. -/
structure Module where
  interface_classes : List String
  features : List String := []
  description : String
  implementation : String
  accessibles : List (String × Accessible)
  x_plc : Option PlcModuleConfig := none

/-- `SecNodeConfig` from `model/secnode.py`. -/
structure SecNodeConfig where
  equipment_id : String
  description : String
  firmware : String
  modules : List (String × Module)
  x_plc : Option PlcNodeConfig := none

/-- `k in d` on a Python dict. -/
def containsKey (d : List (String × Accessible)) (k : String) : Bool :=
  (d.lookup k).isSome

/-- Python `str.strip()`: drop leading and trailing whitespace.
(Defined over the character list so that it evaluates inside the kernel.) -/
def pyStrip (s : String) : String :=
  ⟨((s.data.dropWhile Char.isWhitespace).reverse.dropWhile Char.isWhitespace).reverse⟩

/-- Python `name.startswith("_")`. -/
def startsWithUnderscore (s : String) : Bool :=
  match s.data with
  | [] => false
  | c :: _ => c == '_'

/-- Code-point lexicographic comparison on character lists (Python string
order, used by `sorted(...)`). -/
def strLexLe : List Char → List Char → Bool
  | [], _ => true
  | _ :: _, [] => false
  | a :: as, b :: bs => if a == b then strLexLe as bs else decide (a.toNat < b.toNat)

/-- Python `sorted` on a list of strings (insertion sort, stable). -/
def insertSorted (x : String) : List String → List String
  | [] => [x]
  | y :: ys => if strLexLe x.data y.data then x :: y :: ys else y :: insertSorted x ys

def sortStrings : List String → List String
  | [] => []
  | x :: xs => insertSorted x (sortStrings xs)

-- ---------------------------------------------------------------------------
-- Constants and helpers from `rules/secop_rules.py`
-- ---------------------------------------------------------------------------

def PROTOCOL_TYPES : List String :=
  ["double", "scaled", "int", "bool", "enum", "string",
   "blob", "array", "tuple", "struct", "matrix", "command"]

def PLC_UNSUPPORTED_TYPES : List String := ["scaled", "blob", "matrix", "struct"]

def ALLOWED_TYPES_THIS_CODEGEN : List String :=
  PROTOCOL_TYPES.filter (fun t => !PLC_UNSUPPORTED_TYPES.contains t)

/-- `_has_class` from `rules/secop_rules.py`. -/
def hasClass (m : Module) (clsName : String) : Bool :=
  m.interface_classes.contains clsName

/-- `_is_drivable` from `rules/secop_rules.py`. -/
def isDrivable (m : Module) : Bool := hasClass m "Drivable"

/-- `_is_writable` from `rules/secop_rules.py`. -/
def isWritable (m : Module) : Bool := hasClass m "Writable" || isDrivable m

/-- `_is_readable` from `rules/secop_rules.py`. -/
def isReadable (m : Module) : Bool := hasClass m "Readable" || isWritable m

-- ---------------------------------------------------------------------------
-- Helpers from `rules/plc_rules.py`
-- ---------------------------------------------------------------------------

def IMPLEMENTATION_WARNING_SUFFIX : String :=
  "Manual PLC implementation will be required. Refer to generated tasks list."

/-- `_is_empty` from `rules/plc_rules.py`: `None` or whitespace-only. -/
def isEmptyField (value : Option String) : Bool :=
  match value with
  | none => true
  | some s => pyStrip s == ""

/-- `_is_drivable` from `rules/plc_rules.py` (takes the raw class list). -/
def isDrivableClasses (interface_classes : List String) : Bool :=
  interface_classes.contains "Drivable"

/-- `_status_enum_members` from `rules/plc_rules.py`: the status enum member
dict when `status` is a well-shaped `tuple(enum, string)`, else `none`. -/
def statusEnumMembers (mod : Module) : Option (List (String × Int)) :=
  match mod.accessibles.lookup "status" with
  | none => none
  | some status =>
    let di := status.datainfo
    if di.type ≠ "tuple" then none
    else
      match di.members with
      | some (Members.list [m0, _m1]) =>
        if m0.type ≠ some "enum" then none
        else
          match m0.members with
          | some em => some em
          | none => none
      | _ => none

-- ---------------------------------------------------------------------------
-- SECoP protocol rules (`rules/secop_rules.py`)
-- ---------------------------------------------------------------------------

/-- `rule_non_empty_modules` (R-NODE-001). -/
def rule_non_empty_modules (cfg : SecNodeConfig) : List Finding :=
  if cfg.modules.isEmpty then
    [{ rule_id := "R-NODE-001", severity := .ERROR, path := "$.modules",
       message := "Node must contain at least one module" }]
  else []

/-- The R-MOD-001 finding for an unrecognized interface class. -/
def invalidInterfaceClassFinding (n cls : String) : Finding :=
  { rule_id := "R-MOD-001", severity := .ERROR,
    path := s!"$.modules.{n}.interface_classes",
    message := s!"Invalid interface class {cls}",
    hint := some ("Allowed values are: Readable, Writable, Drivable. " ++
      "Readable is implicit in Writable, and Writable is implicit in Drivable.") }

/-- The R-MOD-001 finding for a class list whose length is not one. -/
def interfaceClassesNotSingleFinding (n : String) : Finding :=
  { rule_id := "R-MOD-001", severity := .ERROR,
    path := s!"$.modules.{n}.interface_classes",
    message := "interface_classes must be a list with exactly one element",
    hint := some ("Use exactly one of: [Readable], [Writable], or [Drivable]. " ++
      "Readable is implicit in Writable, and Writable is implicit in Drivable.") }

/-- Loop body of `rule_interface_classes_single` (R-MOD-001) for one module. -/
def rule_interface_classes_single_module (n : String) (mod : Module) : List Finding :=
  match mod.interface_classes with
  | [cls] =>
    if ["Readable", "Writable", "Drivable"].contains cls then []
    else [invalidInterfaceClassFinding n cls]
  | _ => [interfaceClassesNotSingleFinding n]

def rule_interface_classes_single (cfg : SecNodeConfig) : List Finding :=
  cfg.modules.flatMap (fun p => rule_interface_classes_single_module p.1 p.2)

/-- Loop body of `rule_features_and_offset_not_supported_on_plc` (R-MOD-002). -/
def rule_features_and_offset_module (n : String) (mod : Module) : List Finding :=
  let feats := mod.features
  let unknown := feats.filter (fun f => f != "HasOffset")
  (if !unknown.isEmpty then
    [{ rule_id := "R-MOD-002", severity := .ERROR, path := s!"$.modules.{n}.features",
       message := "Unsupported feature(s) in module.features (not implemented on this PLC SEC node).",
       hint := some s!"Only supported protocol feature name is HasOffset (but PLC does not implement it). Unknown={unknown}" }]
   else []) ++
  (if feats.contains "HasOffset" then
    [{ rule_id := "R-MOD-002", severity := .ERROR, path := s!"$.modules.{n}.features",
       message := "features includes HasOffset, but this PLC SEC node does not implement HasOffset.",
       hint := some ("For PLC nodes, offset/scaling/format conversions should be handled directly in PLC logic; " ++
         "provide the final scaled value via value.") }]
   else []) ++
  (if containsKey mod.accessibles "offset" then
    [{ rule_id := "R-MOD-002", severity := .ERROR, path := s!"$.modules.{n}.accessibles.offset",
       message := "Module defines offset, but this PLC SEC node does not implement the offset accessible.",
       hint := some "For PLC nodes, apply offsets in PLC logic and expose only the final scaled value via value." }]
   else [])

def rule_features_and_offset_not_supported_on_plc (cfg : SecNodeConfig) : List Finding :=
  cfg.modules.flatMap (fun p => rule_features_and_offset_module p.1 p.2)

/-- The `missing` list computed by the R-CLS-001 section of
`rule_required_accessibles`. -/
def missingReadableAccessibles (mod : Module) : List String :=
  ["value", "status", "pollinterval"].filter (fun k => !containsKey mod.accessibles k)

/-- The `R-CLS-001` section of `rule_required_accessibles`: Readable-tier
modules must define value/status/pollinterval. -/
def requiredReadableCheck (n : String) (mod : Module) : List Finding :=
  if isReadable mod then
    if !(missingReadableAccessibles mod).isEmpty then
      [{ rule_id := "R-CLS-001", severity := .ERROR, path := s!"$.modules.{n}.accessibles",
         message := "Readable modules must define value/status/pollinterval",
         hint := some ("Missing: " ++ toString (missingReadableAccessibles mod)) }]
    else []
  else []

/-- The `R-CLS-002` section of `rule_required_accessibles`: Writable-tier
modules must define target. -/
def requiredWritableCheck (n : String) (mod : Module) : List Finding :=
  if isWritable mod && !containsKey mod.accessibles "target" then
    [{ rule_id := "R-CLS-002", severity := .ERROR, path := s!"$.modules.{n}.accessibles.target",
       message := "Writable/Drivable modules must define target" }]
  else []

/-- The `R-CLS-003` section of `rule_required_accessibles`: Drivable modules
must define stop. -/
def requiredDrivableCheck (n : String) (mod : Module) : List Finding :=
  if isDrivable mod && !containsKey mod.accessibles "stop" then
    [{ rule_id := "R-CLS-003", severity := .ERROR, path := s!"$.modules.{n}.accessibles.stop",
       message := "Drivable modules must define stop command" }]
  else []

/-- Loop body of `rule_required_accessibles` (R-CLS-001/002/003) for one module. -/
def rule_required_accessibles_module (n : String) (mod : Module) : List Finding :=
  requiredReadableCheck n mod ++ requiredWritableCheck n mod ++ requiredDrivableCheck n mod

def rule_required_accessibles (cfg : SecNodeConfig) : List Finding :=
  cfg.modules.flatMap (fun p => rule_required_accessibles_module p.1 p.2)

/-- `allowed_by_class` dict of `rule_forbidden_accessibles_by_class`, with the
`.get(cls, set())` default for an unrecognized class. -/
def allowed_by_class (cls : String) : List String :=
  if cls == "Readable" then ["value", "status", "pollinterval", "clear_errors"]
  else if cls == "Writable" then
    ["value", "status", "pollinterval", "target", "target_limits", "clear_errors"]
  else if cls == "Drivable" then
    ["value", "status", "pollinterval", "target", "target_limits", "clear_errors", "stop"]
  else []

/-- The R-CLS-004 finding for one disallowed accessible name. -/
def forbiddenAccessibleFinding (n cls accName : String) : Finding :=
  { rule_id := "R-CLS-004", severity := .ERROR,
    path := s!"$.modules.{n}.accessibles.{accName}",
    message := s!"Accessible {accName} is not allowed for interface class {cls}",
    hint := some ("Supported non-customised accessibles are: " ++
      "Readable: value, status, pollinterval, clear_errors; " ++
      "Writable: Readable + target, target_limits; " ++
      "Drivable: Writable + stop.") }

/-- Loop body of `rule_forbidden_accessibles_by_class` (R-CLS-004) for one
module. The source reads `mod.interface_classes[0]` unconditionally, which
raises `IndexError` when the list is empty; `none` models that exception. -/
def rule_forbidden_accessibles_by_class_module (n : String) (mod : Module) :
    Option (List Finding) :=
  match mod.interface_classes with
  | [] => none
  | cls :: _ =>
    some (mod.accessibles.flatMap (fun p =>
      let accName := p.1
      if startsWithUnderscore accName then []
      else if !(allowed_by_class cls).contains accName then
        [forbiddenAccessibleFinding n cls accName]
      else []))

def rule_forbidden_accessibles_by_class (cfg : SecNodeConfig) : Option (List Finding) :=
  match cfg.modules.mapM (fun p => rule_forbidden_accessibles_by_class_module p.1 p.2) with
  | none => none
  | some perModule => some perModule.flatten

-- Status structure and codes (R-STAT-001..005)

def baseRequiredCodes : List (String × Int) := [("IDLE", 100), ("WARN", 200), ("ERROR", 400)]

def allowedStatusKeys : List String := ["DISABLED", "IDLE", "WARN", "BUSY", "ERROR"]

def statusMembersPath (n : String) : String :=
  s!"$.modules.{n}.accessibles.status.datainfo.members[0].members"

/-- Body of the `expected_codes` loop of `rule_status_structure_and_codes`:
missing key or wrong code is an ERROR; BUSY reports under R-STAT-003,
the base codes under R-STAT-002. -/
def checkExpectedCode (n : String) (em : List (String × Int)) (key : String)
    (expected : Int) : List Finding :=
  let rid := if key == "BUSY" then "R-STAT-003" else "R-STAT-002"
  match em.lookup key with
  | none =>
    [{ rule_id := rid, severity := .ERROR, path := statusMembersPath n,
       message := s!"{key}:{expected} is required" }]
  | some actual =>
    if actual != expected then
      [{ rule_id := rid, severity := .ERROR, path := statusMembersPath n,
         message := s!"Wrong status code for {key}: expected {expected}, got {actual}",
         hint := some "Status codes are fixed by the SECoP protocol." }]
    else []

/-- Keys of the status enum outside the recognized set, sorted (`extra_keys`). -/
def statusExtraKeys (em : List (String × Int)) : List String :=
  sortStrings ((em.map Prod.fst).filter (fun k => !allowedStatusKeys.contains k))

/-- Step 2/2a of `rule_status_structure_and_codes`: the `expected_codes`
dict (BUSY added for Drivable modules) and the loop validating each entry. -/
def statusLoopFindings (n : String) (mod : Module) (em : List (String × Int)) :
    List Finding :=
  (baseRequiredCodes ++ (if isDrivable mod then [("BUSY", (300 : Int))] else [])).flatMap
    (fun p => checkExpectedCode n em p.1 p.2)

/-- Step 3 of `rule_status_structure_and_codes`: BUSY is forbidden for
non-Drivable modules. -/
def busyForbiddenFindings (n : String) (mod : Module) (em : List (String × Int)) :
    List Finding :=
  if !isDrivable mod && (em.lookup "BUSY").isSome then
    [{ rule_id := "R-STAT-003", severity := .ERROR, path := statusMembersPath n,
       message := "BUSY is forbidden for non-Drivable modules" }]
  else []

/-- Step 4 of `rule_status_structure_and_codes`: DISABLED, if present, must
use the fixed code 0. -/
def disabledCodeFindings (n : String) (em : List (String × Int)) : List Finding :=
  match em.lookup "DISABLED" with
  | some a =>
    if a != 0 then
      [{ rule_id := "R-STAT-004", severity := .ERROR, path := statusMembersPath n,
         message := s!"Wrong status code for DISABLED: expected 0, got {a}",
         hint := some "DISABLED status code is fixed by the SECoP protocol." }]
    else []
  | none => []

/-- Step 5 of `rule_status_structure_and_codes`: extra status enum members
produce one (non-blocking) WARNING listing them. -/
def extraStatusFindings (n : String) (em : List (String × Int)) : List Finding :=
  if !(statusExtraKeys em).isEmpty then
    [{ rule_id := "R-STAT-005", severity := .WARNING, path := statusMembersPath n,
       message := ("Status enum contains unsupported members for current PLC SEC node version; " ++
         "they will be ignored by the generator. Extra=" ++ toString (statusExtraKeys em)) }]
  else []

/-- Checks run by `rule_status_structure_and_codes` once the status tuple
shape is established and the enum member dict `em` extracted. -/
def statusCodeChecks (n : String) (mod : Module) (em : List (String × Int)) :
    List Finding :=
  statusLoopFindings n mod em ++ busyForbiddenFindings n mod em ++
  disabledCodeFindings n em ++ extraStatusFindings n em

/-- Loop body of `rule_status_structure_and_codes` for one module. -/
def rule_status_structure_and_codes_module (n : String) (mod : Module) : List Finding :=
  match mod.accessibles.lookup "status" with
  | none => []
  | some status =>
    let di := status.datainfo
    if di.type != "tuple" then
      [{ rule_id := "R-STAT-001", severity := .ERROR,
         path := s!"$.modules.{n}.accessibles.status.datainfo.type",
         message := "status must be datainfo.type == tuple" }]
    else
      match di.members with
      | some (Members.list [m0, m1]) =>
        if m0.type != some "enum" then
          [{ rule_id := "R-STAT-001", severity := .ERROR,
             path := s!"$.modules.{n}.accessibles.status.datainfo.members[0]",
             message := "status.members[0] must be an enum definition" }]
        else if m1.type != some "string" then
          [{ rule_id := "R-STAT-001", severity := .ERROR,
             path := s!"$.modules.{n}.accessibles.status.datainfo.members[1]",
             message := "status.members[1] must be a string definition" }]
        else
          match m0.members with
          | none =>
            [{ rule_id := "R-STAT-001", severity := .ERROR,
               path := statusMembersPath n,
               message := "status enum members must be a dictionary" }]
          | some em => statusCodeChecks n mod em
      | _ =>
        [{ rule_id := "R-STAT-001", severity := .ERROR,
           path := s!"$.modules.{n}.accessibles.status.datainfo.members",
           message := "status must be tuple(enum,string) with exactly 2 members, as defined by the protocol" }]

def rule_status_structure_and_codes (cfg : SecNodeConfig) : List Finding :=
  cfg.modules.flatMap (fun p => rule_status_structure_and_codes_module p.1 p.2)

/-- Loop body of `rule_custom_command_accessibles_warn` (R-ACC-001). -/
def rule_custom_command_accessibles_warn_module (n : String) (mod : Module) : List Finding :=
  mod.accessibles.flatMap (fun p =>
    let accName := p.1
    if startsWithUnderscore accName && p.2.datainfo.type == "command" then
      [{ rule_id := "R-ACC-001", severity := .WARNING,
         path := s!"$.modules.{n}.accessibles.{accName}",
         message := (s!"Custom command accessible {accName} is not generated automatically; " ++
           "the generator will emit placeholders and the developer must implement it manually."),
         hint := some "Implement the command behaviour manually in the PLC project (or follow the demo patterns)." }]
    else [])

def rule_custom_command_accessibles_warn (cfg : SecNodeConfig) : List Finding :=
  cfg.modules.flatMap (fun p => rule_custom_command_accessibles_warn_module p.1 p.2)

/-- Per-accessible body of `rule_accessible_members_by_type` (R-ACC-002). -/
def rule_accessible_members_by_type_acc (n accName : String) (acc : Accessible) : List Finding :=
  let di := acc.datainfo
  if di.type == "enum" then
    match di.members with
    | some (Members.dict _) => []
    | _ =>
      [{ rule_id := "R-ACC-002", severity := .ERROR,
         path := s!"$.modules.{n}.accessibles.{accName}.datainfo.members",
         message := "Invalid datainfo.members for type enum (must be a dict)." }]
  else if di.type == "tuple" then
    match di.members with
    | some (Members.list _) => []
    | _ =>
      [{ rule_id := "R-ACC-002", severity := .ERROR,
         path := s!"$.modules.{n}.accessibles.{accName}.datainfo.members",
         message := "Invalid datainfo.members for type tuple (must be a list)." }]
  else if di.type == "array" then
    match di.members with
    | some (Members.dict _) => []
    | _ =>
      [{ rule_id := "R-ACC-002", severity := .ERROR,
         path := s!"$.modules.{n}.accessibles.{accName}.datainfo.members",
         message := "Invalid datainfo.members for type array (must be an object/dict)." }]
  else []

def rule_accessible_members_by_type (cfg : SecNodeConfig) : List Finding :=
  cfg.modules.flatMap (fun p =>
    p.2.accessibles.flatMap (fun q => rule_accessible_members_by_type_acc p.1 q.1 q.2))

/-- The R-ACC-003 finding for an incoherent numeric range. -/
def numericRangeFinding (n accName : String) : Finding :=
  { rule_id := "R-ACC-003", severity := .ERROR,
    path := s!"$.modules.{n}.accessibles.{accName}.datainfo",
    message := "Invalid numeric range: min must be < max." }

/-- Per-accessible body of `rule_numeric_ranges_coherent` (R-ACC-003). -/
def rule_numeric_ranges_coherent_acc (n accName : String) (acc : Accessible) : List Finding :=
  let di := acc.datainfo
  match di.min, di.max with
  | some mn, some mx =>
    if mn ≥ mx then [numericRangeFinding n accName]
    else []
  | _, _ => []

def rule_numeric_ranges_coherent (cfg : SecNodeConfig) : List Finding :=
  cfg.modules.flatMap (fun p =>
    p.2.accessibles.flatMap (fun q => rule_numeric_ranges_coherent_acc p.1 q.1 q.2))

/-- Loop body of `rule_target_limits_within_target` (R-ACC-004). -/
def rule_target_limits_within_target_module (n : String) (mod : Module) : List Finding :=
  match mod.accessibles.lookup "target", mod.accessibles.lookup "target_limits" with
  | some target, some limits =>
    let tdi := target.datainfo
    let ldi := limits.datainfo
    (match tdi.min, ldi.min with
     | some tmn, some lmn =>
       if lmn < tmn then
         [{ rule_id := "R-ACC-004", severity := .ERROR,
            path := s!"$.modules.{n}.accessibles.target_limits.datainfo",
            message := "target_limits.min must be >= target.min (target_limits restricts target)." }]
       else []
     | _, _ => []) ++
    (match tdi.max, ldi.max with
     | some tmx, some lmx =>
       if lmx > tmx then
         [{ rule_id := "R-ACC-004", severity := .ERROR,
            path := s!"$.modules.{n}.accessibles.target_limits.datainfo",
            message := "target_limits.max must be <= target.max (target_limits restricts target)." }]
       else []
     | _, _ => [])
  | _, _ => []

def rule_target_limits_within_target (cfg : SecNodeConfig) : List Finding :=
  cfg.modules.flatMap (fun p => rule_target_limits_within_target_module p.1 p.2)

/-- Per-accessible body of `rule_string_requires_maxchars` (R-ACC-005). -/
def rule_string_requires_maxchars_acc (n accName : String) (acc : Accessible) : List Finding :=
  let di := acc.datainfo
  if di.type == "string" then
    if (match di.maxchars with | none => true | some v => v ≤ 0) then
      [{ rule_id := "R-ACC-005", severity := .ERROR,
         path := s!"$.modules.{n}.accessibles.{accName}.datainfo.maxchars",
         message := "datainfo.maxchars is required (>0) when datainfo.type == string.",
         hint := some "Set maxchars so the generator can declare a PLC STRING with a fixed length." }]
    else []
  else []

def rule_string_requires_maxchars (cfg : SecNodeConfig) : List Finding :=
  cfg.modules.flatMap (fun p =>
    p.2.accessibles.flatMap (fun q => rule_string_requires_maxchars_acc p.1 q.1 q.2))

/-- Per-accessible body of `rule_array_requires_maxlen` (R-ACC-006). -/
def rule_array_requires_maxlen_acc (n accName : String) (acc : Accessible) : List Finding :=
  let di := acc.datainfo
  if di.type == "array" then
    if (match di.maxlen with | none => true | some v => v ≤ 0) then
      [{ rule_id := "R-ACC-006", severity := .ERROR,
         path := s!"$.modules.{n}.accessibles.{accName}.datainfo.maxlen",
         message := "datainfo.maxlen is required (>0) when datainfo.type == array.",
         hint := some "Set maxlen so the generator can declare a PLC ARRAY with a fixed length." }]
    else []
  else []

def rule_array_requires_maxlen (cfg : SecNodeConfig) : List Finding :=
  cfg.modules.flatMap (fun p =>
    p.2.accessibles.flatMap (fun q => rule_array_requires_maxlen_acc p.1 q.1 q.2))

/-- The three R-ACC-007 findings of `rule_standard_accessible_readonly_policy`. -/
def readonlyPolicyFinding (n accName expectedVal : String) : Finding :=
  { rule_id := "R-ACC-007", severity := .ERROR,
    path := s!"$.modules.{n}.accessibles.{accName}.readonly",
    message := s!"Accessible {accName} must have readonly={expectedVal}." }

/-- The `# value` section of `rule_standard_accessible_readonly_policy`. -/
def valueReadonlyCheck (n : String) (accs : List (String × Accessible)) : List Finding :=
  match accs.lookup "value" with
  | some a => if a.readonly != true then [readonlyPolicyFinding n "value" "true"] else []
  | none => []

/-- The `# status` section of `rule_standard_accessible_readonly_policy`. -/
def statusReadonlyCheck (n : String) (accs : List (String × Accessible)) : List Finding :=
  match accs.lookup "status" with
  | some a => if a.readonly != true then [readonlyPolicyFinding n "status" "true"] else []
  | none => []

/-- The `# target` section of `rule_standard_accessible_readonly_policy`. -/
def targetReadonlyCheck (n : String) (accs : List (String × Accessible)) : List Finding :=
  match accs.lookup "target" with
  | some a => if a.readonly != false then [readonlyPolicyFinding n "target" "false"] else []
  | none => []

/-- Loop body of `rule_standard_accessible_readonly_policy` (R-ACC-007). -/
def rule_standard_accessible_readonly_policy_module (n : String) (mod : Module) : List Finding :=
  valueReadonlyCheck n mod.accessibles ++
  statusReadonlyCheck n mod.accessibles ++
  targetReadonlyCheck n mod.accessibles

def rule_standard_accessible_readonly_policy (cfg : SecNodeConfig) : List Finding :=
  cfg.modules.flatMap (fun p => rule_standard_accessible_readonly_policy_module p.1 p.2)

/-- Loop body of `rule_target_datainfo_type_matches_value` (R-ACC-008). -/
def rule_target_datainfo_type_matches_value_module (n : String) (mod : Module) : List Finding :=
  if !isWritable mod then []
  else
    match mod.accessibles.lookup "value", mod.accessibles.lookup "target" with
    | some v, some t =>
      let value_type := pyStrip v.datainfo.type
      let target_type := pyStrip t.datainfo.type
      (if target_type != value_type then
        [{ rule_id := "R-ACC-008", severity := .ERROR,
           path := s!"$.modules.{n}.accessibles.target.datainfo.type",
           message := "target.datainfo.type must match value.datainfo.type",
           hint := some s!"value.type={value_type}, target.type={target_type}" }]
       else []) ++
      (match mod.accessibles.lookup "target_limits" with
       | some lim =>
         let lim_type := pyStrip lim.datainfo.type
         if lim_type != value_type then
           [{ rule_id := "R-ACC-008", severity := .ERROR,
              path := s!"$.modules.{n}.accessibles.target_limits.datainfo.type",
              message := "target_limits.datainfo.type must match value.datainfo.type",
              hint := some s!"value.type={value_type}, target_limits.type={lim_type}" }]
         else []
       | none => [])
    | _, _ => []

def rule_target_datainfo_type_matches_value (cfg : SecNodeConfig) : List Finding :=
  cfg.modules.flatMap (fun p => rule_target_datainfo_type_matches_value_module p.1 p.2)

/-- Per-accessible body of `rule_checkable_requires_manual_plc` (R-ACC-009). -/
def rule_checkable_requires_manual_plc_acc (n accName : String) (acc : Accessible) : List Finding :=
  if acc.checkable == some true then
    [{ rule_id := "R-ACC-009", severity := .WARNING,
       path := s!"$.modules.{n}.accessibles.{accName}.checkable",
       message := "checkable=true requires manual PLC implementation (generator will emit placeholders)",
       category := some "implementation",
       plc_refs := [s!"ST_Module_{n}"] }]
  else []

def rule_checkable_requires_manual_plc (cfg : SecNodeConfig) : List Finding :=
  cfg.modules.flatMap (fun p =>
    p.2.accessibles.flatMap (fun q => rule_checkable_requires_manual_plc_acc p.1 q.1 q.2))

def allowedTypesSorted : List String := sortStrings ALLOWED_TYPES_THIS_CODEGEN

/-- The `argument`/`result` sub-checks of `rule_command_datainfo_shape`. -/
def commandSubFindings (n accName subName : String) (sub : Option DataInfo) : List Finding :=
  match sub with
  | none => []
  | some s =>
    let subType := pyStrip s.type
    if subType == "" then
      [{ rule_id := "R-ACC-010", severity := .ERROR,
         path := s!"$.modules.{n}.accessibles.{accName}.datainfo.{subName}.type",
         message := s!"Invalid command datainfo: {subName} must define type." }]
    else if !ALLOWED_TYPES_THIS_CODEGEN.contains subType then
      [{ rule_id := "R-ACC-010", severity := .ERROR,
         path := s!"$.modules.{n}.accessibles.{accName}.datainfo.{subName}.type",
         message := s!"Invalid command datainfo: {subName}.type is not supported on this PLC SEC node.",
         hint := some s!"Allowed types (this generator): {allowedTypesSorted}" }]
    else []

/-- Per-accessible body of `rule_command_datainfo_shape` (R-ACC-010). -/
def rule_command_datainfo_shape_acc (n accName : String) (acc : Accessible) : List Finding :=
  let di := acc.datainfo
  if pyStrip di.type != "command" then []
  else
    (if di.unit.isSome || di.min.isSome || di.max.isSome || di.maxchars.isSome ||
        di.maxlen.isSome || di.members.isSome then
      [{ rule_id := "R-ACC-010", severity := .ERROR,
         path := s!"$.modules.{n}.accessibles.{accName}.datainfo",
         message := "Invalid command datainfo: only argument and/or result are allowed as optional fields." }]
     else []) ++
    commandSubFindings n accName "argument" di.argument ++
    commandSubFindings n accName "result" di.result

def rule_command_datainfo_shape (cfg : SecNodeConfig) : List Finding :=
  cfg.modules.flatMap (fun p =>
    p.2.accessibles.flatMap (fun q => rule_command_datainfo_shape_acc p.1 q.1 q.2))

/-- Per-accessible body of `rule_datainfo_type_supported` (R-DI-001). -/
def rule_datainfo_type_supported_acc (n accName : String) (acc : Accessible) : List Finding :=
  let t := pyStrip acc.datainfo.type
  if PLC_UNSUPPORTED_TYPES.contains t then
    [{ rule_id := "R-DI-001", severity := .ERROR,
       path := s!"$.modules.{n}.accessibles.{accName}.datainfo.type",
       message := "type not required/supported on current sec node plc version",
       hint := some s!"Allowed types (this generator): {allowedTypesSorted}" }]
  else if !PROTOCOL_TYPES.contains t then
    [{ rule_id := "R-DI-001", severity := .ERROR,
       path := s!"$.modules.{n}.accessibles.{accName}.datainfo.type",
       message := s!"datainfo.type {t} is not defined by the SECoP protocol",
       hint := some s!"Allowed types (this generator): {allowedTypesSorted}" }]
  else []

def rule_datainfo_type_supported (cfg : SecNodeConfig) : List Finding :=
  cfg.modules.flatMap (fun p =>
    p.2.accessibles.flatMap (fun q => rule_datainfo_type_supported_acc p.1 q.1 q.2))

-- ---------------------------------------------------------------------------
-- PLC/tooling rules (`rules/plc_rules.py`)
-- ---------------------------------------------------------------------------

/-- A WARNING finding of the "field X is not configured" family, with the
implementation-warning suffix, category and PLC references the source attaches. -/
def implWarn (rid path fieldDesc : String) (refs : List String) : Finding :=
  { rule_id := rid, severity := .WARNING, path := path,
    message := s!"{fieldDesc} {IMPLEMENTATION_WARNING_SUFFIX}",
    category := some "implementation", plc_refs := refs }

/-- One `xplc_to_acc` check of `rule_xplc_keys_exist_in_secop_accessibles`. -/
def xplcKeyCheck (n : String) (mod : Module) (xKey : String) (present : Bool) : List Finding :=
  if present && !containsKey mod.accessibles xKey then
    [{ rule_id := "R-PLC-001", severity := .ERROR,
       path := s!"$.modules.{n}.x-plc.{xKey}",
       message := s!"x-plc.{xKey} is present but the SECoP accessible {xKey} is missing",
       hint := some s!"Either remove x-plc.{xKey} or add {xKey} under modules.{n}.accessibles." }]
  else []

/-- Loop body of `rule_xplc_keys_exist_in_secop_accessibles` (R-PLC-001). -/
def rule_xplc_keys_exist_module (n : String) (mod : Module) : List Finding :=
  match mod.x_plc with
  | none => []
  | some xplc =>
    xplcKeyCheck n mod "value" xplc.value.isSome ++
    xplcKeyCheck n mod "status" xplc.status.isSome ++
    xplcKeyCheck n mod "target" xplc.target.isSome ++
    xplcKeyCheck n mod "clear_errors" xplc.clear_errors.isSome

def rule_xplc_keys_exist_in_secop_accessibles (cfg : SecNodeConfig) : List Finding :=
  cfg.modules.flatMap (fun p => rule_xplc_keys_exist_module p.1 p.2)

/-- `rule_xplc_node_fields_configured` (R-PLC-010). Note the source returns
early when the whole `x-plc` block or its `tcp` sub-block is absent. -/
def rule_xplc_node_fields_configured (cfg : SecNodeConfig) : List Finding :=
  match cfg.x_plc with
  | none => []
  | some xplc =>
    match xplc.tcp with
    | none =>
      [implWarn "R-PLC-010" "$.x-plc.tcp"
        "The field x-plc.tcp is not configured." ["SecopInit"]]
    | some tcp =>
      (if isEmptyField tcp.server_ip then
        [implWarn "R-PLC-010" "$.x-plc.tcp.server_ip"
          "The field x-plc.tcp.server_ip is not configured." ["SecopInit"]]
       else []) ++
      (if tcp.server_port.isNone then
        [implWarn "R-PLC-010" "$.x-plc.tcp.server_port"
          "The field x-plc.tcp.server_port is not configured." ["SecopInit"]]
       else []) ++
      (if isEmptyField tcp.interface_healthy_tag then
        [implWarn "R-PLC-010" "$.x-plc.tcp.interface_healthy_tag"
          "The field x-plc.tcp.interface_healthy_tag is not configured." ["SecopMapFromPlc"]]
       else []) ++
      (if isEmptyField xplc.secop_version then
        [implWarn "R-PLC-010" "$.x-plc.secop_version"
          "The field x-plc.secop_version is not configured." ["SecopInit"]]
       else []) ++
      (if isEmptyField xplc.plc_timestamp_tag then
        [implWarn "R-PLC-010" "$.x-plc.plc_timestamp_tag"
          "The field x-plc.plc_timestamp_tag is not configured." ["SecopMapFromPlc"]]
       else [])

/-- Loop body of `rule_xplc_module_timestamp_tag_configured` (R-PLC-020). -/
def rule_xplc_module_timestamp_tag_configured_module (n : String) (mod : Module) : List Finding :=
  match mod.x_plc with
  | none => []
  | some xplc =>
    if isEmptyField xplc.timestamp_tag then
      [implWarn "R-PLC-020" s!"$.modules.{n}.x-plc.timestamp_tag"
        "The field x-plc.timestamp_tag is not configured." ["SecopMapFromPlc"]]
    else []

def rule_xplc_module_timestamp_tag_configured (cfg : SecNodeConfig) : List Finding :=
  cfg.modules.flatMap (fun p => rule_xplc_module_timestamp_tag_configured_module p.1 p.2)

/-- Loop body of `rule_xplc_status_hw_error_fields_configured` (R-PLC-021). -/
def rule_xplc_status_hw_error_fields_configured_module (n : String) (mod : Module) : List Finding :=
  match mod.x_plc with
  | none => []
  | some xplc =>
    match xplc.status with
    | none => []
    | some st =>
      (if isEmptyField st.hw_error_expr then
        [implWarn "R-PLC-021" s!"$.modules.{n}.x-plc.status.hw_error_expr"
          "The field x-plc.status.hw_error_expr is not configured." ["SecopMapFromPlc"]]
       else []) ++
      (if isEmptyField st.hw_error_description then
        [implWarn "R-PLC-021" s!"$.modules.{n}.x-plc.status.hw_error_description"
          "The field x-plc.status.hw_error_description is not configured." ["SecopMapFromPlc"]]
       else [])

def rule_xplc_status_hw_error_fields_configured (cfg : SecNodeConfig) : List Finding :=
  cfg.modules.flatMap (fun p => rule_xplc_status_hw_error_fields_configured_module p.1 p.2)

/-- Loop body of `rule_xplc_status_disabled_fields_coherent`
(R-PLC-022 / R-PLC-023). Note both directions are guarded by the presence of
the module `x-plc.status` block (`continue` in the source otherwise). -/
def rule_xplc_status_disabled_fields_coherent_module (n : String) (mod : Module) : List Finding :=
  match mod.x_plc with
  | none => []
  | some xplc =>
    match xplc.status with
    | none => []
    | some st =>
      let enumMembers := (statusEnumMembers mod).getD []
      let statusHasDisabled0 := enumMembers.lookup "DISABLED" == some 0
      let disabledExprPresent := !isEmptyField st.disabled_expr
      let disabledDescPresent := !isEmptyField st.disabled_description
      (if (disabledExprPresent || disabledDescPresent) && !statusHasDisabled0 then
        [{ rule_id := "R-PLC-022", severity := .ERROR,
           path := s!"$.modules.{n}.x-plc.status",
           message := "x-plc.status.disabled_* is present but status enum does not contain DISABLED:0.",
           hint := some "Add DISABLED:0 to status enum members or remove x-plc.status.disabled_* fields." }]
       else []) ++
      (if statusHasDisabled0 then
        (if isEmptyField st.disabled_expr then
          [implWarn "R-PLC-023" s!"$.modules.{n}.x-plc.status.disabled_expr"
            "Status enum contains DISABLED:0, but x-plc.status.disabled_expr is not configured."
            ["SecopMapFromPlc"]]
         else []) ++
        (if isEmptyField st.disabled_description then
          [implWarn "R-PLC-023" s!"$.modules.{n}.x-plc.status.disabled_description"
            "Status enum contains DISABLED:0, but x-plc.status.disabled_description is not configured."
            ["SecopMapFromPlc"]]
         else [])
       else [])

def rule_xplc_status_disabled_fields_coherent (cfg : SecNodeConfig) : List Finding :=
  cfg.modules.flatMap (fun p => rule_xplc_status_disabled_fields_coherent_module p.1 p.2)

/-- Loop body of `rule_xplc_target_change_possible_expr_configured` (R-PLC-026). -/
def rule_xplc_target_change_possible_expr_configured_module (n : String) (mod : Module) :
    List Finding :=
  match mod.x_plc with
  | none => []
  | some xplc =>
    match xplc.target with
    | none => []
    | some t =>
      if isEmptyField t.change_possible_expr then
        [implWarn "R-PLC-026" s!"$.modules.{n}.x-plc.target.change_possible_expr"
          "The field x-plc.target.change_possible_expr is not configured." ["SecopMapFromPlc"]]
      else []

def rule_xplc_target_change_possible_expr_configured (cfg : SecNodeConfig) : List Finding :=
  cfg.modules.flatMap (fun p => rule_xplc_target_change_possible_expr_configured_module p.1 p.2)

/-- Loop body of `rule_xplc_target_reach_fields` (R-PLC-024 / R-PLC-025). -/
def rule_xplc_target_reach_fields_module (n : String) (mod : Module) : List Finding :=
  match mod.x_plc with
  | none => []
  | some xplc =>
    match xplc.target with
    | none => []
    | some t =>
      let is_drv := isDrivableClasses mod.interface_classes
      let target_type :=
        match mod.accessibles.lookup "target" with
        | some a => pyStrip a.datainfo.type
        | none => ""
      (if t.reach_timeout_s.isSome && !is_drv then
        [{ rule_id := "R-PLC-024", severity := .ERROR,
           path := s!"$.modules.{n}.x-plc.target.reach_timeout_s",
           message := "x-plc.target.reach_timeout_s is only allowed for Drivable modules.",
           hint := some "Remove reach_timeout_s or change module interface_classes to Drivable." }]
       else []) ++
      (if t.reach_abs_tolerance.isSome && !is_drv then
        [{ rule_id := "R-PLC-024", severity := .ERROR,
           path := s!"$.modules.{n}.x-plc.target.reach_abs_tolerance",
           message := "x-plc.target.reach_abs_tolerance is only allowed for Drivable modules.",
           hint := some "Remove reach_abs_tolerance or change module interface_classes to Drivable." }]
       else []) ++
      (if is_drv then
        (if t.reach_timeout_s.isNone then
          [implWarn "R-PLC-025" s!"$.modules.{n}.x-plc.target.reach_timeout_s"
            "The field x-plc.target.reach_timeout_s is not configured." ["SecopInit"]]
         else []) ++
        (if target_type != "enum" && t.reach_abs_tolerance.isNone then
          [implWarn "R-PLC-025" s!"$.modules.{n}.x-plc.target.reach_abs_tolerance"
            "The field x-plc.target.reach_abs_tolerance is not configured." [s!"ST_Module_{n}"]]
         else [])
       else [])

def rule_xplc_target_reach_fields (cfg : SecNodeConfig) : List Finding :=
  cfg.modules.flatMap (fun p => rule_xplc_target_reach_fields_module p.1 p.2)

/-- `bool(v_cfg and (v_cfg.field or "").strip())` on an optional text field. -/
def optTextPresent (cfgOpt : Option (Option String)) : Bool :=
  match cfgOpt with
  | none => false
  | some field => !isEmptyField field

/-- Loop body of `rule_xplc_value_mapping_by_type` (R-PLC-030 / R-PLC-031). -/
def rule_xplc_value_mapping_by_type_module (n : String) (mod : Module) : List Finding :=
  match mod.x_plc with
  | none => []
  | some xplc =>
    match mod.accessibles.lookup "value" with
    | none => []
    | some v =>
      let v_type := pyStrip v.datainfo.type
      let v_cfg := xplc.value
      let has_read_expr := optTextPresent (v_cfg.map (·.read_expr))
      let has_enum_tag := optTextPresent (v_cfg.map (·.enum_tag))
      let has_enum_map :=
        match v_cfg with
        | some c => (match c.enum_member_map with | some m => !m.isEmpty | none => false)
        | none => false
      if v_type == "enum" then
        (if has_read_expr then
          [{ rule_id := "R-PLC-030", severity := .ERROR,
             path := s!"$.modules.{n}.x-plc.value.read_expr",
             message := "Invalid x-plc.value: SECoP value is enum, so read_expr must not be defined.",
             hint := some "Use x-plc.value.enum_tag + x-plc.value.enum_member_map for enum values." }]
         else []) ++
        (if !(has_enum_tag && has_enum_map) then
          [implWarn "R-PLC-031" s!"$.modules.{n}.x-plc.value"
            "The field x-plc.value (enum mapping) is not configured."
            ["SecopMapFromPlc", s!"ET_Module_{n}"]]
         else [])
      else
        (if has_enum_tag || has_enum_map then
          [{ rule_id := "R-PLC-030", severity := .ERROR,
             path := s!"$.modules.{n}.x-plc.value",
             message := (s!"Invalid x-plc.value: SECoP value is type {v_type}, " ++
               "so enum_tag/enum_member_map must not be defined."),
             hint := some "Use x-plc.value.read_expr for non-enum values." }]
         else []) ++
        (if !has_read_expr then
          [implWarn "R-PLC-031" s!"$.modules.{n}.x-plc.value.read_expr"
            "The field x-plc.value.read_expr is not configured." ["SecopMapFromPlc"]]
         else [])

def rule_xplc_value_mapping_by_type (cfg : SecNodeConfig) : List Finding :=
  cfg.modules.flatMap (fun p => rule_xplc_value_mapping_by_type_module p.1 p.2)

def writeStmtOnEnumMsg : String :=
  "Invalid x-plc.target: SECoP target is enum, so write_stmt must not be defined."

def reachTolOnEnumMsg : String :=
  "Invalid x-plc.target.reach_abs_tolerance: enum targets must not use reach_abs_tolerance."

/-- Loop body of `rule_xplc_target_mapping_by_type` (R-PLC-032 / R-PLC-033). -/
def rule_xplc_target_mapping_by_type_module (n : String) (mod : Module) : List Finding :=
  match mod.x_plc with
  | none => []
  | some xplc =>
    match mod.accessibles.lookup "target" with
    | none => []
    | some tAcc =>
      let t_type := pyStrip tAcc.datainfo.type
      let t_cfg := xplc.target
      let has_write_stmt := optTextPresent (t_cfg.map (·.write_stmt))
      let has_enum_tag := optTextPresent (t_cfg.map (·.enum_tag))
      if t_type == "enum" then
        (if has_write_stmt then
          [{ rule_id := "R-PLC-032", severity := .ERROR,
             path := s!"$.modules.{n}.x-plc.target.write_stmt",
             message := writeStmtOnEnumMsg,
             hint := some "Use x-plc.target.enum_tag for enum targets." }]
         else []) ++
        (if !has_enum_tag then
          [implWarn "R-PLC-033" s!"$.modules.{n}.x-plc.target.enum_tag"
            "The field x-plc.target.enum_tag is not configured." ["SecopMapToPlc"]]
         else []) ++
        (match t_cfg with
         | some tc =>
           if tc.reach_abs_tolerance.isSome then
             [{ rule_id := "R-PLC-032", severity := .ERROR,
                path := s!"$.modules.{n}.x-plc.target.reach_abs_tolerance",
                message := reachTolOnEnumMsg,
                hint := some "Remove reach_abs_tolerance for enum targets." }]
           else []
         | none => [])
      else
        (if has_enum_tag then
          [{ rule_id := "R-PLC-032", severity := .ERROR,
             path := s!"$.modules.{n}.x-plc.target.enum_tag",
             message := s!"Invalid x-plc.target: SECoP target is type {t_type}, so enum_tag must not be defined.",
             hint := some "Use x-plc.target.write_stmt for non-enum targets." }]
         else []) ++
        (if !has_write_stmt then
          [implWarn "R-PLC-033" s!"$.modules.{n}.x-plc.target.write_stmt"
            "The field x-plc.target.write_stmt is not configured." ["SecopMapToPlc"]]
         else [])

def rule_xplc_target_mapping_by_type (cfg : SecNodeConfig) : List Finding :=
  cfg.modules.flatMap (fun p => rule_xplc_target_mapping_by_type_module p.1 p.2)

/-- The R-PLC-040 warning message for one module. -/
def clearErrorsMissingMsg (n : String) : String :=
  (s!"Missing PLC command statement for {n}.clear_errors. " ++
   "The generator will clear SECoP ErrorReport only (by default). " ++
   "If you would like the command to perform an extra action, write it in cmd_stmt.")

/-- Loop body of `rule_xplc_clear_errors_cmd_stmt_optional` (R-PLC-040). -/
def rule_xplc_clear_errors_cmd_stmt_optional_module (n : String) (mod : Module) : List Finding :=
  if !containsKey mod.accessibles "clear_errors" then []
  else
    let missingCfg : List Finding :=
      [{ rule_id := "R-PLC-040", severity := .WARNING,
         path := s!"$.modules.{n}.x-plc.clear_errors",
         message := clearErrorsMissingMsg n,
         category := some "implementation", plc_refs := ["SecopMapToPlc"] }]
    match mod.x_plc with
    | none => missingCfg
    | some xplc =>
      match xplc.clear_errors with
      | none => missingCfg
      | some ce =>
        if isEmptyField ce.cmd_stmt then
          [{ rule_id := "R-PLC-040", severity := .WARNING,
             path := s!"$.modules.{n}.x-plc.clear_errors.cmd_stmt",
             message := clearErrorsMissingMsg n,
             category := some "implementation", plc_refs := ["SecopMapToPlc"] }]
        else []

def rule_xplc_clear_errors_cmd_stmt_optional (cfg : SecNodeConfig) : List Finding :=
  cfg.modules.flatMap (fun p => rule_xplc_clear_errors_cmd_stmt_optional_module p.1 p.2)

-- ---------------------------------------------------------------------------
-- Orchestrator (`validators/validate_config.py`)
-- ---------------------------------------------------------------------------

/-- `validate_config`: runs every rule in catalog order and concatenates the
findings. `rule_forbidden_accessibles_by_class` can raise (see above), which
aborts the whole run; `none` models that exception escaping `validate_config`. -/
def validate_config (cfg : SecNodeConfig) : Option (List Finding) :=
  match rule_forbidden_accessibles_by_class cfg with
  | none => none
  | some forbidden =>
    some (rule_non_empty_modules cfg
      ++ rule_interface_classes_single cfg
      ++ rule_features_and_offset_not_supported_on_plc cfg
      ++ rule_required_accessibles cfg
      ++ forbidden
      ++ rule_custom_command_accessibles_warn cfg
      ++ rule_accessible_members_by_type cfg
      ++ rule_numeric_ranges_coherent cfg
      ++ rule_target_limits_within_target cfg
      ++ rule_string_requires_maxchars cfg
      ++ rule_array_requires_maxlen cfg
      ++ rule_standard_accessible_readonly_policy cfg
      ++ rule_target_datainfo_type_matches_value cfg
      ++ rule_checkable_requires_manual_plc cfg
      ++ rule_command_datainfo_shape cfg
      ++ rule_datainfo_type_supported cfg
      ++ rule_status_structure_and_codes cfg
      ++ rule_xplc_keys_exist_in_secop_accessibles cfg
      ++ rule_xplc_node_fields_configured cfg
      ++ rule_xplc_module_timestamp_tag_configured cfg
      ++ rule_xplc_status_hw_error_fields_configured cfg
      ++ rule_xplc_status_disabled_fields_coherent cfg
      ++ rule_xplc_target_change_possible_expr_configured cfg
      ++ rule_xplc_target_reach_fields cfg
      ++ rule_xplc_value_mapping_by_type cfg
      ++ rule_xplc_target_mapping_by_type cfg
      ++ rule_xplc_clear_errors_cmd_stmt_optional cfg)

/-- `has_errors` from `validators/validate_config.py`: the blocking boolean. -/
def has_errors (findings : List Finding) : Bool :=
  findings.any (fun f => f.severity == Severity.ERROR)

/-- The findings of a report carrying a given rule id at a given path. -/
def findingsWith (out : List Finding) (rid p : String) : List Finding :=
  out.filter (fun f => f.rule_id == rid && f.path == p)

-- ---------------------------------------------------------------------------
-- Concrete configurations used as witnesses and counterexamples
-- ---------------------------------------------------------------------------

/-- `status` datainfo `tuple(enum e, string)` for a given enum member dict. -/
def statusTupleDataInfo (e : List (String × Int)) : DataInfo :=
  .mk "tuple" none none none none none
    (some (Members.list [{ type := some "enum", members := some e },
                         { type := some "string" }]))
    none none

/-- The module of spec Example 1: `["Readable"]`, accessibles
`value` (readonly, double), `status` (readonly, tuple(enum,string) with the
three base codes) and `pollinterval`, and no module tooling block. -/
def exampleReadableModule : Module :=
  { interface_classes := ["Readable"],
    features := [],
    description := "demo module",
    implementation := "demo",
    accessibles :=
      [("value", Accessible.ofInput "current value" (DataInfo.simple "double") (some true) none),
       ("status", Accessible.ofInput "module status"
          (statusTupleDataInfo [("IDLE", 100), ("WARN", 200), ("ERROR", 400)]) (some true) none),
       ("pollinterval", Accessible.ofInput "poll interval" (DataInfo.simple "double") none none)],
    x_plc := none }

/-- The node of spec Example 1, with no tooling block at any level. -/
def exampleNoToolingConfig : SecNodeConfig :=
  { equipment_id := "demo", description := "demo node", firmware := "v1",
    modules := [("mod1", exampleReadableModule)], x_plc := none }

/-- Like `exampleReadableModule` but the status enum also declares
`DISABLED:0`; still no tooling block anywhere. -/
def disabledNoToolingModule : Module :=
  { interface_classes := ["Readable"],
    features := [],
    description := "demo module",
    implementation := "demo",
    accessibles :=
      [("value", Accessible.ofInput "current value" (DataInfo.simple "double") (some true) none),
       ("status", Accessible.ofInput "module status"
          (statusTupleDataInfo [("IDLE", 100), ("WARN", 200), ("ERROR", 400), ("DISABLED", 0)])
          (some true) none),
       ("pollinterval", Accessible.ofInput "poll interval" (DataInfo.simple "double") none none)],
    x_plc := none }

def disabledNoToolingConfig : SecNodeConfig :=
  { equipment_id := "demo", description := "demo node", firmware := "v1",
    modules := [("mod1", disabledNoToolingModule)], x_plc := none }

/-- A module whose `interface_classes` is the empty list — accepted by the
pydantic shape layer (`List[str]` admits `[]`). -/
def emptyClassesModule : Module :=
  { interface_classes := [],
    features := [],
    description := "module with no interface class",
    implementation := "demo",
    accessibles :=
      [("value", Accessible.ofInput "v" (DataInfo.simple "double") (some true) none)],
    x_plc := none }

def emptyClassesConfig : SecNodeConfig :=
  { equipment_id := "demo", description := "demo node", firmware := "v1",
    modules := [("m1", emptyClassesModule)], x_plc := none }

/-- A Drivable-tagged module that omits both `target` and `stop`. -/
def drivableMissingTargetStopModule : Module :=
  { interface_classes := ["Drivable"],
    features := [],
    description := "demo",
    implementation := "demo",
    accessibles :=
      [("value", Accessible.ofInput "v" (DataInfo.simple "double") (some true) none),
       ("status", Accessible.ofInput "s"
          (statusTupleDataInfo [("IDLE", 100), ("WARN", 200), ("BUSY", 300), ("ERROR", 400)])
          (some true) none),
       ("pollinterval", Accessible.ofInput "p" (DataInfo.simple "double") none none)],
    x_plc := none }

/-- A module with the unrecognized interface class `Magic`, three standard
accessibles and one custom (underscore-prefixed) one. -/
def magicClassModule : Module :=
  { interface_classes := ["Magic"],
    features := [],
    description := "demo",
    implementation := "demo",
    accessibles :=
      [("value", Accessible.ofInput "v" (DataInfo.simple "double") (some true) none),
       ("status", Accessible.ofInput "s"
          (statusTupleDataInfo [("IDLE", 100), ("WARN", 200), ("ERROR", 400)]) (some true) none),
       ("pollinterval", Accessible.ofInput "p" (DataInfo.simple "double") none none),
       ("_custom", Accessible.ofInput "c" (DataInfo.simple "command") none none)],
    x_plc := none }

/-- A Writable module whose `value`, `status` and `target` accessibles all
omit the `readonly` input field. -/
def omittedReadonlyModule : Module :=
  { interface_classes := ["Writable"],
    features := [],
    description := "demo",
    implementation := "demo",
    accessibles :=
      [("value", Accessible.ofInput "v" (DataInfo.simple "double") none none),
       ("status", Accessible.ofInput "s"
          (statusTupleDataInfo [("IDLE", 100), ("WARN", 200), ("ERROR", 400)]) none none),
       ("target", Accessible.ofInput "t" (DataInfo.simple "double") none none)],
    x_plc := none }

/-- An enum datainfo with two members, used by the C6 witness. -/
def onOffEnumDataInfo : DataInfo :=
  .mk "enum" none none none none none (some (Members.dict [("off", 0), ("on", 1)])) none none

/-- Target tooling block that wrongly sets `write_stmt` and
`reach_abs_tolerance` for an enum target and omits `enum_tag`. -/
def enumTargetXplc : PlcModuleConfig :=
  { timestamp_tag := none,
    value := none,
    status := none,
    target := some
      { write_stmt := some "GVL.iCmd := 1;",
        enum_tag := none,
        change_possible_expr := none,
        reach_timeout_s := none,
        reach_abs_tolerance := some 1 },
    clear_errors := none }

def enumTargetAcc : Accessible :=
  Accessible.ofInput "t" onOffEnumDataInfo none none

/-- A Writable module with an enum-typed `target` and the tooling block of
`enumTargetXplc`. -/
def enumTargetModule : Module :=
  { interface_classes := ["Writable"],
    features := [],
    description := "demo",
    implementation := "demo",
    accessibles :=
      [("value", Accessible.ofInput "v" onOffEnumDataInfo (some true) none),
       ("target", enumTargetAcc)],
    x_plc := some enumTargetXplc }

/-- A module with an `x-plc.status` block whose `disabled_expr` is set but
whose status enum has no `DISABLED` member. -/
def disabledExprWithoutEnumModule : Module :=
  { interface_classes := ["Readable"],
    features := [],
    description := "demo",
    implementation := "demo",
    accessibles :=
      [("value", Accessible.ofInput "v" (DataInfo.simple "double") (some true) none),
       ("status", Accessible.ofInput "s"
          (statusTupleDataInfo [("IDLE", 100), ("WARN", 200), ("ERROR", 400)]) (some true) none),
       ("pollinterval", Accessible.ofInput "p" (DataInfo.simple "double") none none)],
    x_plc := some
      { timestamp_tag := none,
        value := none,
        status := some { disabled_expr := some "G_xDisabled", disabled_description := some "",
                         hw_error_expr := some "", hw_error_description := some "" },
        target := none,
        clear_errors := none } }

/-- A double-typed accessible with the degenerate range `min = max = 1`. -/
def accMin1Max1 : Accessible :=
  Accessible.ofInput "x"
    (DataInfo.mk "double" none (some 1) (some 1) none none none none none) (some true) none

/-- A double-typed accessible with the coherent range `min = 1 < max = 2`. -/
def accMin1Max2 : Accessible :=
  Accessible.ofInput "x"
    (DataInfo.mk "double" none (some 1) (some 2) none none none none none) (some true) none

/-- The status enum of the C1 witness module: correct base codes plus one
unrecognized label. -/
def extraKeyEnum : List (String × Int) :=
  [("IDLE", 100), ("WARN", 200), ("ERROR", 400), ("EXTRA", 7)]

/-- A Readable module whose status enum carries the extra label `EXTRA`. -/
def extraKeyStatusModule : Module :=
  { interface_classes := ["Readable"],
    features := [],
    description := "demo",
    implementation := "demo",
    accessibles :=
      [("value", Accessible.ofInput "v" (DataInfo.simple "double") (some true) none),
       ("status", Accessible.ofInput "module status"
          (statusTupleDataInfo extraKeyEnum) (some true) none),
       ("pollinterval", Accessible.ofInput "p" (DataInfo.simple "double") none none)],
    x_plc := none }

-- ---------------------------------------------------------------------------
-- General helper lemmas
-- ---------------------------------------------------------------------------

theorem flatMap_eq_nil_of_forall {α β : Type} (l : List α) (f : α → List β)
    (h : ∀ x ∈ l, f x = []) : l.flatMap f = [] := by
  rw [List.flatMap_eq_nil_iff]; exact h

-- Helper lemmas about the status-code blocks (used for C1)

theorem checkExpectedCode_rid_count (n : String) (em : List (String × Int))
    (key : String) (expected : Int) :
    (checkExpectedCode n em key expected).countP
      (fun f => f.rule_id == (if key == "BUSY" then "R-STAT-003" else "R-STAT-002")) =
    if em.lookup key = some expected then 0 else 1 := by
  unfold checkExpectedCode
  cases hl : em.lookup key with
  | none => simp [hl]
  | some a =>
    by_cases ha : a = expected
    · simp [hl, ha]
    · simp [hl, ha]

theorem checkExpectedCode_rid_count_other (n : String) (em : List (String × Int))
    (key : String) (expected : Int) (rid : String)
    (h : ((if key == "BUSY" then "R-STAT-003" else "R-STAT-002") == rid) = false) :
    (checkExpectedCode n em key expected).countP (fun f => f.rule_id == rid) = 0 := by
  have h' : ¬(if key = "BUSY" then ("R-STAT-003" : String) else "R-STAT-002") = rid := by
    by_cases hk : key = "BUSY" <;> simp [hk] at h ⊢ <;> simpa using h
  unfold checkExpectedCode
  cases hl : em.lookup key with
  | none => simp [h']
  | some a => by_cases ha : a = expected <;> simp [ha, h']

theorem checkExpectedCode_mem (n : String) (em : List (String × Int))
    (key : String) (expected : Int) :
    ∀ f ∈ checkExpectedCode n em key expected,
      f.severity = Severity.ERROR ∧
      (f.rule_id = "R-STAT-002" ∨ f.rule_id = "R-STAT-003") := by
  intro f hf
  unfold checkExpectedCode at hf
  cases hl : em.lookup key with
  | none =>
    rw [hl] at hf
    simp at hf
    subst hf
    refine ⟨rfl, ?_⟩
    by_cases hk : key = "BUSY" <;> simp [hk]
  | some a =>
    rw [hl] at hf
    by_cases ha : a = expected
    · simp [ha] at hf
    · simp [ha] at hf
      subst hf
      refine ⟨rfl, ?_⟩
      by_cases hk : key = "BUSY" <;> simp [hk]

theorem statusLoopFindings_countP_002 (n : String) (mod : Module)
    (em : List (String × Int)) :
    (statusLoopFindings n mod em).countP (fun f => f.rule_id == "R-STAT-002") =
    (baseRequiredCodes.filter (fun p => !(em.lookup p.1 == some p.2))).length := by
  have hI := checkExpectedCode_rid_count n em "IDLE" 100
  have hW := checkExpectedCode_rid_count n em "WARN" 200
  have hE := checkExpectedCode_rid_count n em "ERROR" 400
  simp at hI hW hE
  have hB := checkExpectedCode_rid_count_other n em "BUSY" 300 "R-STAT-002" (by decide)
  cases hd : isDrivable mod <;>
    · simp [statusLoopFindings, hd, baseRequiredCodes, List.countP_append, hI, hW, hE, hB]
      by_cases h1 : em.lookup "IDLE" = some 100 <;>
        by_cases h2 : em.lookup "WARN" = some 200 <;>
        by_cases h3 : em.lookup "ERROR" = some 400 <;>
        simp [h1, h2, h3]

theorem statusLoopFindings_countP_003 (n : String) (mod : Module)
    (em : List (String × Int)) :
    (statusLoopFindings n mod em).countP (fun f => f.rule_id == "R-STAT-003") =
    (if isDrivable mod = true then (if em.lookup "BUSY" = some 300 then 0 else 1) else 0) := by
  have hI := checkExpectedCode_rid_count_other n em "IDLE" 100 "R-STAT-003" (by decide)
  have hW := checkExpectedCode_rid_count_other n em "WARN" 200 "R-STAT-003" (by decide)
  have hE := checkExpectedCode_rid_count_other n em "ERROR" 400 "R-STAT-003" (by decide)
  have hB := checkExpectedCode_rid_count n em "BUSY" 300
  simp at hB
  cases hd : isDrivable mod <;>
    simp [statusLoopFindings, hd, baseRequiredCodes, List.countP_append, hI, hW, hE, hB]

theorem statusLoopFindings_countP_other (n : String) (mod : Module)
    (em : List (String × Int)) (rid : String)
    (h2 : (("R-STAT-002" : String) == rid) = false)
    (h3 : (("R-STAT-003" : String) == rid) = false) :
    (statusLoopFindings n mod em).countP (fun f => f.rule_id == rid) = 0 := by
  have hI := checkExpectedCode_rid_count_other n em "IDLE" 100 rid (by simpa using h2)
  have hW := checkExpectedCode_rid_count_other n em "WARN" 200 rid (by simpa using h2)
  have hE := checkExpectedCode_rid_count_other n em "ERROR" 400 rid (by simpa using h2)
  have hB := checkExpectedCode_rid_count_other n em "BUSY" 300 rid (by simpa using h3)
  cases hd : isDrivable mod <;>
    simp [statusLoopFindings, hd, baseRequiredCodes, List.countP_append, hI, hW, hE, hB]

theorem statusLoopFindings_mem (n : String) (mod : Module) (em : List (String × Int)) :
    ∀ f ∈ statusLoopFindings n mod em,
      f.severity = Severity.ERROR ∧
      (f.rule_id = "R-STAT-002" ∨ f.rule_id = "R-STAT-003") := by
  intro f hf
  unfold statusLoopFindings at hf
  rw [List.mem_flatMap] at hf
  obtain ⟨p, _, hfp⟩ := hf
  exact checkExpectedCode_mem n em p.1 p.2 f hfp

theorem busyForbiddenFindings_countP_003 (n : String) (mod : Module)
    (em : List (String × Int)) :
    (busyForbiddenFindings n mod em).countP (fun f => f.rule_id == "R-STAT-003") =
    (if (!isDrivable mod && (em.lookup "BUSY").isSome) = true then 1 else 0) := by
  unfold busyForbiddenFindings
  split <;> simp_all

theorem busyForbiddenFindings_countP_other (n : String) (mod : Module)
    (em : List (String × Int)) (rid : String)
    (h : (("R-STAT-003" : String) == rid) = false) :
    (busyForbiddenFindings n mod em).countP (fun f => f.rule_id == rid) = 0 := by
  unfold busyForbiddenFindings
  split <;> simp [h]

theorem busyForbiddenFindings_mem (n : String) (mod : Module) (em : List (String × Int)) :
    ∀ f ∈ busyForbiddenFindings n mod em,
      f.severity = Severity.ERROR ∧ f.rule_id = "R-STAT-003" := by
  intro f hf
  unfold busyForbiddenFindings at hf
  split at hf
  · simp only [List.mem_singleton] at hf
    subst hf; exact ⟨rfl, rfl⟩
  · simp at hf

theorem disabledCodeFindings_countP_004 (n : String) (em : List (String × Int)) :
    (disabledCodeFindings n em).countP (fun f => f.rule_id == "R-STAT-004") =
    (match em.lookup "DISABLED" with
     | some a => if a = 0 then 0 else 1
     | none => 0) := by
  unfold disabledCodeFindings
  cases hl : em.lookup "DISABLED" with
  | none => simp
  | some a => by_cases ha : a = 0 <;> simp [ha]

theorem disabledCodeFindings_countP_other (n : String) (em : List (String × Int))
    (rid : String) (h : (("R-STAT-004" : String) == rid) = false) :
    (disabledCodeFindings n em).countP (fun f => f.rule_id == rid) = 0 := by
  unfold disabledCodeFindings
  cases hl : em.lookup "DISABLED" with
  | none => simp
  | some a => by_cases ha : a = 0 <;> simp [ha, h]

theorem disabledCodeFindings_mem (n : String) (em : List (String × Int)) :
    ∀ f ∈ disabledCodeFindings n em,
      f.severity = Severity.ERROR ∧ f.rule_id = "R-STAT-004" := by
  intro f hf
  unfold disabledCodeFindings at hf
  split at hf
  · split at hf
    · simp only [List.mem_singleton] at hf
      subst hf; exact ⟨rfl, rfl⟩
    · simp at hf
  · simp at hf

theorem extraStatusFindings_countP_005 (n : String) (em : List (String × Int)) :
    (extraStatusFindings n em).countP (fun f => f.rule_id == "R-STAT-005") =
    (if statusExtraKeys em = [] then 0 else 1) := by
  unfold extraStatusFindings
  by_cases he : statusExtraKeys em = []
  · simp [he]
  · simp [he, List.isEmpty_eq_false.mpr he]

theorem extraStatusFindings_countP_other (n : String) (em : List (String × Int))
    (rid : String) (h : (("R-STAT-005" : String) == rid) = false) :
    (extraStatusFindings n em).countP (fun f => f.rule_id == rid) = 0 := by
  unfold extraStatusFindings
  split <;> simp [h]

theorem extraStatusFindings_mem (n : String) (em : List (String × Int)) :
    ∀ f ∈ extraStatusFindings n em,
      f.severity = Severity.WARNING ∧ f.rule_id = "R-STAT-005" := by
  intro f hf
  unfold extraStatusFindings at hf
  split at hf
  · simp only [List.mem_singleton] at hf
    subst hf; exact ⟨rfl, rfl⟩
  · simp at hf

-- ---------------------------------------------------------------------------
-- Claim theorems
-- ---------------------------------------------------------------------------

/-- C1: for a module whose `status` accessible is a well-shaped
`tuple(enum, string)` with enum member dict `em`:
the number of R-STAT-002 ERRORs equals the number of base codes
(IDLE:100, WARN:200, ERROR:400) that are missing or mapped to a wrong code;
for a Drivable module there is exactly one R-STAT-003 finding unless
`BUSY = 300`; for a non-Drivable module there is exactly one R-STAT-003
finding exactly when BUSY is present; DISABLED, if present, yields one
R-STAT-004 ERROR exactly when its code is not 0; unrecognized labels yield a
single R-STAT-005 finding; and a finding of this rule is a WARNING exactly
when it is the R-STAT-005 extra-labels finding (everything else is an
ERROR). -/
theorem status_codes_characterization
    (n : String) (mod : Module) (st : Accessible) (m0 m1 : TupleFragment)
    (em : List (String × Int))
    (hst : mod.accessibles.lookup "status" = some st)
    (htype : st.datainfo.type = "tuple")
    (hmem : st.datainfo.members = some (Members.list [m0, m1]))
    (hm0 : m0.type = some "enum")
    (hm1 : m1.type = some "string")
    (hem : m0.members = some em) :
    ((rule_status_structure_and_codes_module n mod).countP
        (fun f => f.rule_id == "R-STAT-002") =
      (baseRequiredCodes.filter (fun p => !(em.lookup p.1 == some p.2))).length) ∧
    (isDrivable mod = true →
      (rule_status_structure_and_codes_module n mod).countP
          (fun f => f.rule_id == "R-STAT-003") =
        (if em.lookup "BUSY" = some 300 then 0 else 1)) ∧
    (isDrivable mod = false →
      (rule_status_structure_and_codes_module n mod).countP
          (fun f => f.rule_id == "R-STAT-003") =
        (if (em.lookup "BUSY").isSome then 1 else 0)) ∧
    ((rule_status_structure_and_codes_module n mod).countP
        (fun f => f.rule_id == "R-STAT-004") =
      (match em.lookup "DISABLED" with
       | some a => if a = 0 then 0 else 1
       | none => 0)) ∧
    ((rule_status_structure_and_codes_module n mod).countP
        (fun f => f.rule_id == "R-STAT-005") =
      (if statusExtraKeys em = [] then 0 else 1)) ∧
    (∀ f ∈ rule_status_structure_and_codes_module n mod,
      (f.severity = Severity.WARNING ↔ f.rule_id = "R-STAT-005")) := by
  have hout : rule_status_structure_and_codes_module n mod = statusCodeChecks n mod em := by
    simp [rule_status_structure_and_codes_module, hst, htype, hmem, hm0, hm1, hem]
  rw [hout]
  unfold statusCodeChecks
  refine ⟨?_, ?_, ?_, ?_, ?_, ?_⟩
  · simp only [List.countP_append]
    rw [statusLoopFindings_countP_002,
      busyForbiddenFindings_countP_other n mod em _ (by decide),
      disabledCodeFindings_countP_other n em _ (by decide),
      extraStatusFindings_countP_other n em _ (by decide)]
    omega
  · intro hd
    simp only [List.countP_append]
    rw [statusLoopFindings_countP_003, busyForbiddenFindings_countP_003,
      disabledCodeFindings_countP_other n em _ (by decide),
      extraStatusFindings_countP_other n em _ (by decide), hd]
    simp
  · intro hd
    simp only [List.countP_append]
    rw [statusLoopFindings_countP_003, busyForbiddenFindings_countP_003,
      disabledCodeFindings_countP_other n em _ (by decide),
      extraStatusFindings_countP_other n em _ (by decide), hd]
    cases hb : (em.lookup "BUSY").isSome <;> simp [hb]
  · simp only [List.countP_append]
    rw [statusLoopFindings_countP_other n mod em _ (by decide) (by decide),
      busyForbiddenFindings_countP_other n mod em _ (by decide),
      disabledCodeFindings_countP_004,
      extraStatusFindings_countP_other n em _ (by decide)]
    simp
  · simp only [List.countP_append]
    rw [statusLoopFindings_countP_other n mod em _ (by decide) (by decide),
      busyForbiddenFindings_countP_other n mod em _ (by decide),
      disabledCodeFindings_countP_other n em _ (by decide),
      extraStatusFindings_countP_005]
    simp
  · intro f hf
    rcases List.mem_append.mp hf with h1 | h1
    · rcases List.mem_append.mp h1 with h2 | h2
      · rcases List.mem_append.mp h2 with h3 | h3
        · obtain ⟨hsev, hid⟩ := statusLoopFindings_mem n mod em f h3
          refine iff_of_false (by rw [hsev]; exact fun h => by cases h) ?_
          rcases hid with h | h <;> (rw [h]; decide)
        · obtain ⟨hsev, hid⟩ := busyForbiddenFindings_mem n mod em f h3
          refine iff_of_false (by rw [hsev]; exact fun h => by cases h) ?_
          rw [hid]; decide
      · obtain ⟨hsev, hid⟩ := disabledCodeFindings_mem n em f h2
        refine iff_of_false (by rw [hsev]; exact fun h => by cases h) ?_
        rw [hid]; decide
    · obtain ⟨hsev, hid⟩ := extraStatusFindings_mem n em f h1
      exact iff_of_true hsev hid

/-- Witness for `status_codes_characterization`: on the concrete module with
an extra enum label, the base-code ERROR count is zero and exactly one
R-STAT-005 warning appears. -/
theorem status_codes_characterization_witness :
    ((rule_status_structure_and_codes_module "m" extraKeyStatusModule).countP
        (fun f => f.rule_id == "R-STAT-005") =
      (if statusExtraKeys extraKeyEnum = [] then 0 else 1)) ∧
    ((rule_status_structure_and_codes_module "m" extraKeyStatusModule).countP
        (fun f => f.rule_id == "R-STAT-002") =
      (baseRequiredCodes.filter
        (fun p => !(extraKeyEnum.lookup p.1 == some p.2))).length) := by
  have h := status_codes_characterization "m" extraKeyStatusModule
    (Accessible.ofInput "module status" (statusTupleDataInfo extraKeyEnum) (some true) none)
    ⟨some "enum", some extraKeyEnum⟩ ⟨some "string", none⟩ extraKeyEnum
    rfl rfl rfl rfl rfl rfl
  exact ⟨h.2.2.2.2.1, h.1⟩

/-- C2: the claim states every rule (and `validate_config`) is total over
every well-formed Schema Model, including a module whose `interface_classes`
is an empty list. The code is not: `rule_forbidden_accessibles_by_class`
reads `mod.interface_classes[0]` unconditionally, raising `IndexError`
(modelled as `none`) on the empty list, which aborts `validate_config`. -/
theorem forbidden_accessibles_rule_crashes_on_empty_interface_classes :
    rule_forbidden_accessibles_by_class emptyClassesConfig = none ∧
    validate_config emptyClassesConfig = none := by
  exact ⟨by decide, by decide⟩

/-- C3 counterexample: the spec Example 1 configuration (Readable module with
value/status/pollinterval and no tooling block at all) produces an empty
finding list — zero ERRORs but also zero WARNINGs, not the five
tooling-absence WARNINGs the claim asserts. -/
theorem example1_no_tooling_zero_findings :
    validate_config exampleNoToolingConfig = some [] ∧
    ((validate_config exampleNoToolingConfig).getD []).countP
      (fun f => f.severity == Severity.WARNING) = 0 := by
  exact ⟨by decide, by decide⟩

/-- C3 amended: when the node-level and module-level tooling blocks are
absent, the tooling rules emit no findings at all (neither WARNING nor
ERROR); the only tooling rule that can still fire is R-PLC-040, and only for
a module that declares a `clear_errors` accessible. In particular the
Example 1 configuration yields zero ERRORs and zero WARNINGs. -/
theorem tooling_rules_silent_when_blocks_absent (cfg : SecNodeConfig)
    (hnode : cfg.x_plc = none)
    (hmods : ∀ p ∈ cfg.modules, (p.2 : Module).x_plc = none) :
    rule_xplc_node_fields_configured cfg = [] ∧
    rule_xplc_keys_exist_in_secop_accessibles cfg = [] ∧
    rule_xplc_module_timestamp_tag_configured cfg = [] ∧
    rule_xplc_status_hw_error_fields_configured cfg = [] ∧
    rule_xplc_status_disabled_fields_coherent cfg = [] ∧
    rule_xplc_target_change_possible_expr_configured cfg = [] ∧
    rule_xplc_target_reach_fields cfg = [] ∧
    rule_xplc_value_mapping_by_type cfg = [] ∧
    rule_xplc_target_mapping_by_type cfg = [] ∧
    ((∀ p ∈ cfg.modules, containsKey (p.2 : Module).accessibles "clear_errors" = false) →
      rule_xplc_clear_errors_cmd_stmt_optional cfg = []) := by
  refine ⟨?_, ?_, ?_, ?_, ?_, ?_, ?_, ?_, ?_, ?_⟩
  · simp [rule_xplc_node_fields_configured, hnode]
  · exact flatMap_eq_nil_of_forall _ _ (fun p hp => by
      simp [rule_xplc_keys_exist_module, hmods p hp])
  · exact flatMap_eq_nil_of_forall _ _ (fun p hp => by
      simp [rule_xplc_module_timestamp_tag_configured_module, hmods p hp])
  · exact flatMap_eq_nil_of_forall _ _ (fun p hp => by
      simp [rule_xplc_status_hw_error_fields_configured_module, hmods p hp])
  · exact flatMap_eq_nil_of_forall _ _ (fun p hp => by
      simp [rule_xplc_status_disabled_fields_coherent_module, hmods p hp])
  · exact flatMap_eq_nil_of_forall _ _ (fun p hp => by
      simp [rule_xplc_target_change_possible_expr_configured_module, hmods p hp])
  · exact flatMap_eq_nil_of_forall _ _ (fun p hp => by
      simp [rule_xplc_target_reach_fields_module, hmods p hp])
  · exact flatMap_eq_nil_of_forall _ _ (fun p hp => by
      simp [rule_xplc_value_mapping_by_type_module, hmods p hp])
  · exact flatMap_eq_nil_of_forall _ _ (fun p hp => by
      simp [rule_xplc_target_mapping_by_type_module, hmods p hp])
  · intro hce
    exact flatMap_eq_nil_of_forall _ _ (fun p hp => by
      simp [rule_xplc_clear_errors_cmd_stmt_optional_module, hce p hp])

/-- Witness for `tooling_rules_silent_when_blocks_absent` at the Example 1
configuration. -/
theorem tooling_rules_silent_when_blocks_absent_witness :
    rule_xplc_node_fields_configured exampleNoToolingConfig = [] ∧
    rule_xplc_keys_exist_in_secop_accessibles exampleNoToolingConfig = [] ∧
    rule_xplc_module_timestamp_tag_configured exampleNoToolingConfig = [] ∧
    rule_xplc_status_hw_error_fields_configured exampleNoToolingConfig = [] ∧
    rule_xplc_status_disabled_fields_coherent exampleNoToolingConfig = [] ∧
    rule_xplc_target_change_possible_expr_configured exampleNoToolingConfig = [] ∧
    rule_xplc_target_reach_fields exampleNoToolingConfig = [] ∧
    rule_xplc_value_mapping_by_type exampleNoToolingConfig = [] ∧
    rule_xplc_target_mapping_by_type exampleNoToolingConfig = [] ∧
    ((∀ p ∈ exampleNoToolingConfig.modules,
        containsKey (p.2 : Module).accessibles "clear_errors" = false) →
      rule_xplc_clear_errors_cmd_stmt_optional exampleNoToolingConfig = []) :=
  tooling_rules_silent_when_blocks_absent exampleNoToolingConfig rfl
    (by intro p hp; fin_cases hp; rfl)

/-- C4: the blocking boolean `has_errors` is true exactly when some finding
has severity ERROR, and a list of WARNINGs only never blocks. -/
theorem has_errors_iff_exists_error (findings : List Finding) :
    (has_errors findings = true ↔ ∃ f ∈ findings, f.severity = Severity.ERROR) ∧
    ((∀ f ∈ findings, f.severity = Severity.WARNING) → has_errors findings = false) := by
  have hiff : has_errors findings = true ↔ ∃ f ∈ findings, f.severity = Severity.ERROR := by
    simp [has_errors]
  refine ⟨hiff, ?_⟩
  intro h
  by_contra hc
  rw [Bool.not_eq_false] at hc
  obtain ⟨f, hf, hsev⟩ := hiff.mp hc
  have hw := h f hf
  rw [hw] at hsev
  exact absurd hsev (by decide)

/-- Witness for `has_errors_iff_exists_error` on a warnings-only list. -/
theorem has_errors_iff_exists_error_witness :
    (has_errors [implWarn "R-PLC-020" "$.modules.m.x-plc.timestamp_tag"
        "The field x-plc.timestamp_tag is not configured." ["SecopMapFromPlc"]] = true ↔
      ∃ f ∈ [implWarn "R-PLC-020" "$.modules.m.x-plc.timestamp_tag"
        "The field x-plc.timestamp_tag is not configured." ["SecopMapFromPlc"]],
        f.severity = Severity.ERROR) ∧
    ((∀ f ∈ [implWarn "R-PLC-020" "$.modules.m.x-plc.timestamp_tag"
        "The field x-plc.timestamp_tag is not configured." ["SecopMapFromPlc"]],
        f.severity = Severity.WARNING) →
      has_errors [implWarn "R-PLC-020" "$.modules.m.x-plc.timestamp_tag"
        "The field x-plc.timestamp_tag is not configured." ["SecopMapFromPlc"]] = false) :=
  has_errors_iff_exists_error _

/-- C5: required accessibles follow the capability lattice: any of the three
tags forces value/status/pollinterval (R-CLS-001 ERROR when one is missing);
Writable or Drivable forces target (R-CLS-002); Drivable forces stop
(R-CLS-003); and the helper predicates implement Drivable → Writable →
Readable. All findings of this rule are ERRORs. -/
theorem required_accessibles_lattice_characterization (n : String) (mod : Module) :
    ((∃ f ∈ rule_required_accessibles_module n mod, f.rule_id = "R-CLS-001") ↔
      (isReadable mod = true ∧
        ¬(containsKey mod.accessibles "value" = true ∧
          containsKey mod.accessibles "status" = true ∧
          containsKey mod.accessibles "pollinterval" = true))) ∧
    ((∃ f ∈ rule_required_accessibles_module n mod, f.rule_id = "R-CLS-002") ↔
      (isWritable mod = true ∧ containsKey mod.accessibles "target" = false)) ∧
    ((∃ f ∈ rule_required_accessibles_module n mod, f.rule_id = "R-CLS-003") ↔
      (isDrivable mod = true ∧ containsKey mod.accessibles "stop" = false)) ∧
    (isReadable mod = true ↔
      (hasClass mod "Readable" = true ∨ hasClass mod "Writable" = true ∨
        hasClass mod "Drivable" = true)) ∧
    (isWritable mod = true ↔
      (hasClass mod "Writable" = true ∨ hasClass mod "Drivable" = true)) ∧
    (isDrivable mod = true ↔ hasClass mod "Drivable" = true) ∧
    (∀ f ∈ rule_required_accessibles_module n mod, f.severity = Severity.ERROR) := by
  have hmissing : missingReadableAccessibles mod = [] ↔
      (containsKey mod.accessibles "value" = true ∧
       containsKey mod.accessibles "status" = true ∧
       containsKey mod.accessibles "pollinterval" = true) := by
    rw [missingReadableAccessibles, List.filter_eq_nil_iff]
    constructor
    · intro h
      refine ⟨?_, ?_, ?_⟩
      · have := h "value" (by simp); simpa using this
      · have := h "status" (by simp); simpa using this
      · have := h "pollinterval" (by simp); simpa using this
    · rintro ⟨h1, h2, h3⟩ a ha
      fin_cases ha <;> simp [h1, h2, h3]
  have hA : (∃ f ∈ requiredReadableCheck n mod, f.rule_id = "R-CLS-001") ↔
      (isReadable mod = true ∧
        ¬(containsKey mod.accessibles "value" = true ∧
          containsKey mod.accessibles "status" = true ∧
          containsKey mod.accessibles "pollinterval" = true)) := by
    unfold requiredReadableCheck
    cases hR : isReadable mod
    · simp [hR]
    · by_cases hm : missingReadableAccessibles mod = []
      · have hie : (missingReadableAccessibles mod).isEmpty = true := List.isEmpty_iff.mpr hm
        simp [hie, hmissing.mp hm]
      · have hie : (missingReadableAccessibles mod).isEmpty = false := List.isEmpty_eq_false.mpr hm
        have hne : ¬(containsKey mod.accessibles "value" = true ∧
            containsKey mod.accessibles "status" = true ∧
            containsKey mod.accessibles "pollinterval" = true) :=
          fun hall => hm (hmissing.mpr hall)
        simp [hie, hne]
  have hB : (∃ f ∈ requiredWritableCheck n mod, f.rule_id = "R-CLS-002") ↔
      (isWritable mod = true ∧ containsKey mod.accessibles "target" = false) := by
    unfold requiredWritableCheck
    cases hW : isWritable mod <;> cases hT : containsKey mod.accessibles "target" <;>
      simp [hW, hT]
  have hC : (∃ f ∈ requiredDrivableCheck n mod, f.rule_id = "R-CLS-003") ↔
      (isDrivable mod = true ∧ containsKey mod.accessibles "stop" = false) := by
    unfold requiredDrivableCheck
    cases hD : isDrivable mod <;> cases hS : containsKey mod.accessibles "stop" <;>
      simp [hD, hS]
  have hA2 : ∀ f ∈ requiredReadableCheck n mod, f.rule_id = "R-CLS-001" := by
    intro f hf
    unfold requiredReadableCheck at hf
    split at hf
    · split at hf
      · simp only [List.mem_singleton] at hf
        subst hf; rfl
      · simp at hf
    · simp at hf
  have hB2 : ∀ f ∈ requiredWritableCheck n mod, f.rule_id = "R-CLS-002" := by
    intro f hf
    unfold requiredWritableCheck at hf
    split at hf
    · simp only [List.mem_singleton] at hf
      subst hf; rfl
    · simp at hf
  have hC2 : ∀ f ∈ requiredDrivableCheck n mod, f.rule_id = "R-CLS-003" := by
    intro f hf
    unfold requiredDrivableCheck at hf
    split at hf
    · simp only [List.mem_singleton] at hf
      subst hf; rfl
    · simp at hf
  refine ⟨?_, ?_, ?_, ?_, ?_, Iff.rfl, ?_⟩
  · rw [← hA]
    unfold rule_required_accessibles_module
    constructor
    · rintro ⟨f, hf, hid⟩
      rcases List.mem_append.mp hf with hf' | hf'
      · rcases List.mem_append.mp hf' with hf'' | hf''
        · exact ⟨f, hf'', hid⟩
        · rw [hB2 f hf''] at hid; exact absurd hid (by decide)
      · rw [hC2 f hf'] at hid; exact absurd hid (by decide)
    · rintro ⟨f, hf, hid⟩
      exact ⟨f, by simp [hf], hid⟩
  · rw [← hB]
    unfold rule_required_accessibles_module
    constructor
    · rintro ⟨f, hf, hid⟩
      rcases List.mem_append.mp hf with hf' | hf'
      · rcases List.mem_append.mp hf' with hf'' | hf''
        · rw [hA2 f hf''] at hid; exact absurd hid (by decide)
        · exact ⟨f, hf'', hid⟩
      · rw [hC2 f hf'] at hid; exact absurd hid (by decide)
    · rintro ⟨f, hf, hid⟩
      exact ⟨f, by simp [hf], hid⟩
  · rw [← hC]
    unfold rule_required_accessibles_module
    constructor
    · rintro ⟨f, hf, hid⟩
      rcases List.mem_append.mp hf with hf' | hf'
      · rcases List.mem_append.mp hf' with hf'' | hf''
        · rw [hA2 f hf''] at hid; exact absurd hid (by decide)
        · rw [hB2 f hf''] at hid; exact absurd hid (by decide)
      · exact ⟨f, hf', hid⟩
    · rintro ⟨f, hf, hid⟩
      exact ⟨f, by simp [hf], hid⟩
  · simp [isReadable, isWritable, isDrivable, Bool.or_eq_true, or_assoc]
  · simp [isWritable, isDrivable, Bool.or_eq_true]
  · intro f hf
    unfold rule_required_accessibles_module at hf
    rcases List.mem_append.mp hf with hf' | hf'
    · rcases List.mem_append.mp hf' with hf'' | hf''
      · unfold requiredReadableCheck at hf''
        split at hf''
        · split at hf''
          · simp only [List.mem_singleton] at hf''
            subst hf''; rfl
          · simp at hf''
        · simp at hf''
      · unfold requiredWritableCheck at hf''
        split at hf''
        · simp only [List.mem_singleton] at hf''
          subst hf''; rfl
        · simp at hf''
    · unfold requiredDrivableCheck at hf'
      split at hf'
      · simp only [List.mem_singleton] at hf'
        subst hf'; rfl
      · simp at hf'

/-- Witness for `required_accessibles_lattice_characterization` at a concrete
Drivable module missing `target` and `stop`. -/
theorem required_accessibles_lattice_characterization_witness :
    ((∃ f ∈ rule_required_accessibles_module "m" drivableMissingTargetStopModule,
        f.rule_id = "R-CLS-001") ↔
      (isReadable drivableMissingTargetStopModule = true ∧
        ¬(containsKey drivableMissingTargetStopModule.accessibles "value" = true ∧
          containsKey drivableMissingTargetStopModule.accessibles "status" = true ∧
          containsKey drivableMissingTargetStopModule.accessibles "pollinterval" = true))) ∧
    ((∃ f ∈ rule_required_accessibles_module "m" drivableMissingTargetStopModule,
        f.rule_id = "R-CLS-002") ↔
      (isWritable drivableMissingTargetStopModule = true ∧
        containsKey drivableMissingTargetStopModule.accessibles "target" = false)) ∧
    ((∃ f ∈ rule_required_accessibles_module "m" drivableMissingTargetStopModule,
        f.rule_id = "R-CLS-003") ↔
      (isDrivable drivableMissingTargetStopModule = true ∧
        containsKey drivableMissingTargetStopModule.accessibles "stop" = false)) ∧
    (isReadable drivableMissingTargetStopModule = true ↔
      (hasClass drivableMissingTargetStopModule "Readable" = true ∨
        hasClass drivableMissingTargetStopModule "Writable" = true ∨
        hasClass drivableMissingTargetStopModule "Drivable" = true)) ∧
    (isWritable drivableMissingTargetStopModule = true ↔
      (hasClass drivableMissingTargetStopModule "Writable" = true ∨
        hasClass drivableMissingTargetStopModule "Drivable" = true)) ∧
    (isDrivable drivableMissingTargetStopModule = true ↔
      hasClass drivableMissingTargetStopModule "Drivable" = true) ∧
    (∀ f ∈ rule_required_accessibles_module "m" drivableMissingTargetStopModule,
      f.severity = Severity.ERROR) :=
  required_accessibles_lattice_characterization "m" drivableMissingTargetStopModule

theorem flatMap_custom_filter_map (l : List (String × Accessible)) (g : String → Finding) :
    (l.flatMap (fun p => if startsWithUnderscore p.1 then [] else [g p.1])) =
    ((l.map Prod.fst).filter (fun a => !startsWithUnderscore a)).map g := by
  induction l with
  | nil => rfl
  | cons a t ih => by_cases hq : startsWithUnderscore a.1 <;> simp [hq, ih]

/-- C9: for a module whose single interface class is unrecognized, the
allowed set defaults to empty, so R-CLS-004 flags every accessible not
prefixed with an underscore (standard names included), while R-MOD-001
independently flags the unrecognized class; all these findings are ERRORs. -/
theorem unrecognized_class_flags_all_non_custom_accessibles
    (n cls : String) (mod : Module)
    (hcls : mod.interface_classes = [cls])
    (hR : cls ≠ "Readable") (hW : cls ≠ "Writable") (hD : cls ≠ "Drivable") :
    rule_forbidden_accessibles_by_class_module n mod =
      some (((mod.accessibles.map Prod.fst).filter
        (fun a => !startsWithUnderscore a)).map (forbiddenAccessibleFinding n cls)) ∧
    rule_interface_classes_single_module n mod = [invalidInterfaceClassFinding n cls] ∧
    (∀ a, (forbiddenAccessibleFinding n cls a).severity = Severity.ERROR ∧
      (forbiddenAccessibleFinding n cls a).rule_id = "R-CLS-004") ∧
    (invalidInterfaceClassFinding n cls).severity = Severity.ERROR ∧
    (invalidInterfaceClassFinding n cls).rule_id = "R-MOD-001" := by
  have hallowed : allowed_by_class cls = [] := by
    simp [allowed_by_class, hR, hW, hD]
  refine ⟨?_, ?_, fun a => ⟨rfl, rfl⟩, rfl, rfl⟩
  · unfold rule_forbidden_accessibles_by_class_module
    rw [hcls]
    rw [← flatMap_custom_filter_map mod.accessibles (forbiddenAccessibleFinding n cls)]
    simp [hallowed]
  · unfold rule_interface_classes_single_module
    rw [hcls]
    simp [hR, hW, hD]

/-- Witness for `unrecognized_class_flags_all_non_custom_accessibles` at a
concrete module tagged with the unrecognized class `Magic`. -/
theorem unrecognized_class_flags_all_non_custom_accessibles_witness :
    rule_forbidden_accessibles_by_class_module "m" magicClassModule =
      some (((magicClassModule.accessibles.map Prod.fst).filter
        (fun a => !startsWithUnderscore a)).map (forbiddenAccessibleFinding "m" "Magic")) ∧
    rule_interface_classes_single_module "m" magicClassModule =
      [invalidInterfaceClassFinding "m" "Magic"] ∧
    (∀ a, (forbiddenAccessibleFinding "m" "Magic" a).severity = Severity.ERROR ∧
      (forbiddenAccessibleFinding "m" "Magic" a).rule_id = "R-CLS-004") ∧
    (invalidInterfaceClassFinding "m" "Magic").severity = Severity.ERROR ∧
    (invalidInterfaceClassFinding "m" "Magic").rule_id = "R-MOD-001" :=
  unrecognized_class_flags_all_non_custom_accessibles "m" "Magic" magicClassModule rfl
    (by decide) (by decide) (by decide)

/-- C10 part of the model: the pydantic default. An accessible built from
input with the `readonly` field omitted equals one built with
`readonly=false`; consequently `value`/`status` accessibles that omit
`readonly` receive the R-ACC-007 ERROR, while a `target` accessible that
omits `readonly` makes the target readonly check emit nothing. -/
theorem readonly_default_policy (n : String) (mod : Module)
    (desc1 desc2 desc3 : String) (di1 di2 di3 : DataInfo) (c1 c2 c3 : Option Bool) :
    (Accessible.ofInput desc1 di1 none c1 = Accessible.ofInput desc1 di1 (some false) c1) ∧
    (mod.accessibles.lookup "value" = some (Accessible.ofInput desc1 di1 none c1) →
      readonlyPolicyFinding n "value" "true" ∈
        rule_standard_accessible_readonly_policy_module n mod) ∧
    (mod.accessibles.lookup "status" = some (Accessible.ofInput desc2 di2 none c2) →
      readonlyPolicyFinding n "status" "true" ∈
        rule_standard_accessible_readonly_policy_module n mod) ∧
    (mod.accessibles.lookup "target" = some (Accessible.ofInput desc3 di3 none c3) →
      targetReadonlyCheck n mod.accessibles = []) := by
  refine ⟨rfl, ?_, ?_, ?_⟩
  · intro h
    unfold rule_standard_accessible_readonly_policy_module
    refine List.mem_append.mpr (Or.inl (List.mem_append.mpr (Or.inl ?_)))
    unfold valueReadonlyCheck
    rw [h]
    simp [Accessible.ofInput]
  · intro h
    unfold rule_standard_accessible_readonly_policy_module
    refine List.mem_append.mpr (Or.inl (List.mem_append.mpr (Or.inr ?_)))
    unfold statusReadonlyCheck
    rw [h]
    simp [Accessible.ofInput]
  · intro h
    unfold targetReadonlyCheck
    rw [h]
    simp [Accessible.ofInput]

/-- Witness for `readonly_default_policy` at a concrete module omitting each
`readonly` field. -/
theorem readonly_default_policy_witness :
    (Accessible.ofInput "v" (DataInfo.simple "double") none none =
      Accessible.ofInput "v" (DataInfo.simple "double") (some false) none) ∧
    (omittedReadonlyModule.accessibles.lookup "value" =
        some (Accessible.ofInput "v" (DataInfo.simple "double") none none) →
      readonlyPolicyFinding "m" "value" "true" ∈
        rule_standard_accessible_readonly_policy_module "m" omittedReadonlyModule) ∧
    (omittedReadonlyModule.accessibles.lookup "status" =
        some (Accessible.ofInput "s"
          (statusTupleDataInfo [("IDLE", 100), ("WARN", 200), ("ERROR", 400)]) none none) →
      readonlyPolicyFinding "m" "status" "true" ∈
        rule_standard_accessible_readonly_policy_module "m" omittedReadonlyModule) ∧
    (omittedReadonlyModule.accessibles.lookup "target" =
        some (Accessible.ofInput "t" (DataInfo.simple "double") none none) →
      targetReadonlyCheck "m" omittedReadonlyModule.accessibles = []) :=
  readonly_default_policy "m" omittedReadonlyModule "v" "s" "t"
    (DataInfo.simple "double")
    (statusTupleDataInfo [("IDLE", 100), ("WARN", 200), ("ERROR", 400)])
    (DataInfo.simple "double") none none none

/-- C7 counterexample: a module whose status enum declares `DISABLED:0` but
which has no `x-plc` block at all gets no R-PLC-023 WARNING (indeed no
finding whatsoever), because `rule_xplc_status_disabled_fields_coherent`
skips any module without an `x-plc.status` block. -/
theorem disabled_enum_without_tooling_block_yields_no_warning :
    disabledNoToolingModule.x_plc = none ∧
    ((statusEnumMembers disabledNoToolingModule).getD []).lookup "DISABLED" = some 0 ∧
    validate_config disabledNoToolingConfig = some [] := by
  exact ⟨rfl, by decide, by decide⟩

/-- C6: for a module with an `x-plc` block and a `target` accessible: when
the target type is `enum`, a non-empty `write_stmt` yields exactly one
R-PLC-032 ERROR (identified by its hint recommending `enum_tag`), a missing
or empty `enum_tag` yields exactly one R-PLC-033 WARNING, and a present
`reach_abs_tolerance` yields exactly one R-PLC-032 ERROR (identified by its
hint to remove it); when the target type is not `enum`, a non-empty
`enum_tag` is exactly one R-PLC-032 ERROR and a missing or empty
`write_stmt` exactly one R-PLC-033 WARNING. The rule emits WARNING exactly
on its R-PLC-033 findings. -/
theorem target_mapping_by_type_characterization
    (n : String) (mod : Module) (xplc : PlcModuleConfig) (tAcc : Accessible)
    (hx : mod.x_plc = some xplc)
    (ht : mod.accessibles.lookup "target" = some tAcc) :
    (pyStrip tAcc.datainfo.type = "enum" →
      ((rule_xplc_target_mapping_by_type_module n mod).countP
          (fun f => f.hint == some "Use x-plc.target.enum_tag for enum targets.") =
        (if optTextPresent (xplc.target.map (·.write_stmt)) then 1 else 0)) ∧
      ((rule_xplc_target_mapping_by_type_module n mod).countP
          (fun f => f.rule_id == "R-PLC-033") =
        (if optTextPresent (xplc.target.map (·.enum_tag)) then 0 else 1)) ∧
      ((rule_xplc_target_mapping_by_type_module n mod).countP
          (fun f => f.hint == some "Remove reach_abs_tolerance for enum targets.") =
        (match xplc.target with
         | some tc => if tc.reach_abs_tolerance.isSome then 1 else 0
         | none => 0)) ∧
      (∀ f ∈ rule_xplc_target_mapping_by_type_module n mod,
        (f.severity = Severity.WARNING ↔ f.rule_id = "R-PLC-033"))) ∧
    (pyStrip tAcc.datainfo.type ≠ "enum" →
      ((rule_xplc_target_mapping_by_type_module n mod).countP
          (fun f => f.rule_id == "R-PLC-032") =
        (if optTextPresent (xplc.target.map (·.enum_tag)) then 1 else 0)) ∧
      ((rule_xplc_target_mapping_by_type_module n mod).countP
          (fun f => f.rule_id == "R-PLC-033") =
        (if optTextPresent (xplc.target.map (·.write_stmt)) then 0 else 1)) ∧
      (∀ f ∈ rule_xplc_target_mapping_by_type_module n mod,
        (f.severity = Severity.WARNING ↔ f.rule_id = "R-PLC-033"))) := by
  constructor
  · intro htype
    have hbeq : (pyStrip tAcc.datainfo.type == "enum") = true := by simp [htype]
    cases htc : xplc.target with
    | none =>
      simp only [rule_xplc_target_mapping_by_type_module, hx, ht, hbeq, htc]
      refine ⟨?_, ?_, ?_, ?_⟩
      · simp [optTextPresent, implWarn]
      · simp [optTextPresent, implWarn]
      · simp [optTextPresent, implWarn]
      · intro f hf
        simp only [optTextPresent, Bool.not_false, if_true, if_false] at hf
        simp at hf
        subst hf
        exact ⟨fun _ => rfl, fun _ => rfl⟩
    | some tc =>
      cases hw : optTextPresent (some tc.write_stmt) <;>
        cases he : optTextPresent (some tc.enum_tag) <;>
        cases hr : tc.reach_abs_tolerance.isSome <;>
        · simp only [rule_xplc_target_mapping_by_type_module, hx, ht, hbeq, htc,
            Option.map_some]
          refine ⟨?_, ?_, ?_, ?_⟩
          · simp [implWarn, hw, he, hr]
          · simp [implWarn, hw, he, hr]
          · simp [implWarn, hw, he, hr]
          · intro f hf
            simp [hw, he, hr] at hf
            all_goals try rcases hf with hf | hf | hf
            all_goals try rcases hf with hf | hf
            all_goals simp_all [implWarn]
  · intro htype
    have hbeq : (pyStrip tAcc.datainfo.type == "enum") = false := by
      simp [htype]
    cases htc : xplc.target with
    | none =>
      simp only [rule_xplc_target_mapping_by_type_module, hx, ht, hbeq, htc]
      refine ⟨?_, ?_, ?_⟩
      · simp [optTextPresent, implWarn]
      · simp [optTextPresent, implWarn]
      · intro f hf
        simp only [optTextPresent] at hf
        simp at hf
        subst hf
        exact ⟨fun _ => rfl, fun _ => rfl⟩
    | some tc =>
      cases hw : optTextPresent (some tc.write_stmt) <;>
        cases he : optTextPresent (some tc.enum_tag) <;>
        · simp only [rule_xplc_target_mapping_by_type_module, hx, ht, hbeq, htc,
            Option.map_some]
          refine ⟨?_, ?_, ?_⟩
          · simp [implWarn, hw, he]
          · simp [implWarn, hw, he]
          · intro f hf
            simp [hw, he] at hf
            all_goals try rcases hf with hf | hf
            all_goals simp_all [implWarn]

/-- Witness for `target_mapping_by_type_characterization`: enum target with a
`write_stmt`, no `enum_tag` and a `reach_abs_tolerance`. -/
theorem target_mapping_by_type_characterization_witness :
    ((rule_xplc_target_mapping_by_type_module "m" enumTargetModule).countP
        (fun f => f.hint == some "Use x-plc.target.enum_tag for enum targets.") =
      (if optTextPresent (enumTargetXplc.target.map (·.write_stmt)) then 1 else 0)) ∧
    ((rule_xplc_target_mapping_by_type_module "m" enumTargetModule).countP
        (fun f => f.rule_id == "R-PLC-033") =
      (if optTextPresent (enumTargetXplc.target.map (·.enum_tag)) then 0 else 1)) ∧
    ((rule_xplc_target_mapping_by_type_module "m" enumTargetModule).countP
        (fun f => f.hint == some "Remove reach_abs_tolerance for enum targets.") =
      (match enumTargetXplc.target with
       | some tc => if tc.reach_abs_tolerance.isSome then 1 else 0
       | none => 0)) ∧
    (∀ f ∈ rule_xplc_target_mapping_by_type_module "m" enumTargetModule,
      (f.severity = Severity.WARNING ↔ f.rule_id = "R-PLC-033")) :=
  (target_mapping_by_type_characterization "m" enumTargetModule enumTargetXplc
    enumTargetAcc rfl rfl).1 (by decide)

/-- C7 amended: provided the module has an `x-plc.status` block, a present
and non-empty disabled-condition field without `DISABLED:0` in the status
enum yields an R-PLC-022 ERROR; with `DISABLED:0` present, each missing or
empty disabled-condition field yields an R-PLC-023 WARNING; outside the
first situation the rule emits only WARNINGs. -/
theorem disabled_fields_coherent_characterization
    (n : String) (mod : Module) (xplc : PlcModuleConfig) (st : PlcStatusConfig)
    (hx : mod.x_plc = some xplc) (hs : xplc.status = some st) :
    (((isEmptyField st.disabled_expr = false ∨ isEmptyField st.disabled_description = false) ∧
      ¬(((statusEnumMembers mod).getD []).lookup "DISABLED" = some 0)) →
      ∃ f ∈ rule_xplc_status_disabled_fields_coherent_module n mod,
        f.rule_id = "R-PLC-022" ∧ f.severity = Severity.ERROR) ∧
    (((statusEnumMembers mod).getD []).lookup "DISABLED" = some 0 →
      (isEmptyField st.disabled_expr = true →
        ∃ f ∈ rule_xplc_status_disabled_fields_coherent_module n mod,
          f.rule_id = "R-PLC-023" ∧ f.severity = Severity.WARNING ∧
          f.path = s!"$.modules.{n}.x-plc.status.disabled_expr") ∧
      (isEmptyField st.disabled_description = true →
        ∃ f ∈ rule_xplc_status_disabled_fields_coherent_module n mod,
          f.rule_id = "R-PLC-023" ∧ f.severity = Severity.WARNING ∧
          f.path = s!"$.modules.{n}.x-plc.status.disabled_description")) ∧
    (¬((isEmptyField st.disabled_expr = false ∨ isEmptyField st.disabled_description = false) ∧
        ¬(((statusEnumMembers mod).getD []).lookup "DISABLED" = some 0)) →
      ∀ f ∈ rule_xplc_status_disabled_fields_coherent_module n mod,
        f.severity = Severity.WARNING) := by
  refine ⟨?_, ?_, ?_⟩
  · rintro ⟨hpres, hno0⟩
    have hc : ((!isEmptyField st.disabled_expr || !isEmptyField st.disabled_description) &&
        !(((statusEnumMembers mod).getD []).lookup "DISABLED" == some 0)) = true := by
      rcases hpres with hp | hp <;> simp [hp, hno0]
    simp only [rule_xplc_status_disabled_fields_coherent_module, hx, hs, hc]
    exact ⟨_, List.mem_append.mpr (Or.inl (List.mem_singleton.mpr rfl)), rfl, rfl⟩
  · intro h0
    have hc0 : (((statusEnumMembers mod).getD []).lookup "DISABLED" == some 0) = true := by
      simp [h0]
    constructor
    · intro he
      refine ⟨implWarn "R-PLC-023" s!"$.modules.{n}.x-plc.status.disabled_expr"
          "Status enum contains DISABLED:0, but x-plc.status.disabled_expr is not configured."
          ["SecopMapFromPlc"], ?_, rfl, rfl, rfl⟩
      simp only [rule_xplc_status_disabled_fields_coherent_module, hx, hs, hc0]
      simp [he]
    · intro he
      refine ⟨implWarn "R-PLC-023" s!"$.modules.{n}.x-plc.status.disabled_description"
          "Status enum contains DISABLED:0, but x-plc.status.disabled_description is not configured."
          ["SecopMapFromPlc"], ?_, rfl, rfl, rfl⟩
      simp only [rule_xplc_status_disabled_fields_coherent_module, hx, hs, hc0]
      simp [he]
  · intro hn f hf
    have hc : ((!isEmptyField st.disabled_expr || !isEmptyField st.disabled_description) &&
        !(((statusEnumMembers mod).getD []).lookup "DISABLED" == some 0)) = false := by
      by_contra hcb
      rw [Bool.not_eq_false] at hcb
      simp only [Bool.and_eq_true, Bool.or_eq_true, Bool.not_eq_true',
        beq_eq_false_iff_ne] at hcb
      exact hn hcb
    simp only [rule_xplc_status_disabled_fields_coherent_module, hx, hs, hc,
      Bool.false_eq_true, if_false, List.nil_append] at hf
    split at hf
    · rcases List.mem_append.mp hf with hf' | hf'
      · split at hf'
        · simp only [List.mem_singleton] at hf'
          subst hf'; rfl
        · simp at hf'
      · split at hf'
        · simp only [List.mem_singleton] at hf'
          subst hf'; rfl
        · simp at hf'
    · simp at hf

/-- Witness for `disabled_fields_coherent_characterization`: with
`disabled_expr` set and no `DISABLED:0` member, the R-PLC-022 ERROR is
emitted. -/
theorem disabled_fields_coherent_characterization_witness :
    ∃ f ∈ rule_xplc_status_disabled_fields_coherent_module "m" disabledExprWithoutEnumModule,
      f.rule_id = "R-PLC-022" ∧ f.severity = Severity.ERROR :=
  (disabled_fields_coherent_characterization "m" disabledExprWithoutEnumModule _ _ rfl rfl).1
    ⟨Or.inl (by decide), by decide⟩

/-- C8: for an accessible carrying both `min` and `max` the R-ACC-003 rule
fires exactly when `min ≥ max` (so `min = max` is an ERROR); if either bound
is absent, or `min < max`, it emits nothing; the finding is an ERROR. -/
theorem numeric_range_rule_characterization (n accName : String) (acc : Accessible) :
    (∀ mn mx, acc.datainfo.min = some mn → acc.datainfo.max = some mx →
      (mn ≥ mx → rule_numeric_ranges_coherent_acc n accName acc = [numericRangeFinding n accName]) ∧
      (mn < mx → rule_numeric_ranges_coherent_acc n accName acc = [])) ∧
    (acc.datainfo.min = none → rule_numeric_ranges_coherent_acc n accName acc = []) ∧
    (acc.datainfo.max = none → rule_numeric_ranges_coherent_acc n accName acc = []) ∧
    (numericRangeFinding n accName).severity = Severity.ERROR := by
  refine ⟨?_, ?_, ?_, rfl⟩
  · intro mn mx hmn hmx
    constructor
    · intro hge
      simp [rule_numeric_ranges_coherent_acc, hmn, hmx, hge]
    · intro hlt
      simp [rule_numeric_ranges_coherent_acc, hmn, hmx, not_le.mpr hlt]
  · intro h
    simp [rule_numeric_ranges_coherent_acc, h]
  · intro h
    cases hm : acc.datainfo.min <;> simp [rule_numeric_ranges_coherent_acc, h, hm]

/-- Witness for `numeric_range_rule_characterization`: `min = max = 1`
triggers the ERROR; `min = 1 < max = 2` does not. -/
theorem numeric_range_rule_characterization_witness :
    rule_numeric_ranges_coherent_acc "m" "a" accMin1Max1 = [numericRangeFinding "m" "a"] ∧
    rule_numeric_ranges_coherent_acc "m" "a" accMin1Max2 = [] := by
  constructor
  · exact ((numeric_range_rule_characterization "m" "a" accMin1Max1).1 1 1 rfl rfl).1 (le_refl 1)
  · exact ((numeric_range_rule_characterization "m" "a" accMin1Max2).1 1 2 rfl rfl).2 (by norm_num)

end SecopPlc
